import Mathlib

/-!
# Verification of the AI-ContentGen-Pro orchestration core

A shallow embedding, in Lean 4, of the content-generation orchestration layer
of the AI-ContentGen-Pro repository:

* `src/utils.py`           — input validation (`validate_input`) and helpers;
* `src/prompt_engine.py`   — `PromptTemplate` (validation, sanitisation,
  rendering) and the template store (`PromptEngine`);
* `src/api_manager.py`     — the retry-with-backoff wrapper around the remote
  client and parameter defaulting in `generate_content`;
* `src/content_generator.py` — the `ContentGenerator` facade (`generate`,
  LRU+TTL cache, history, statistics).

Modelling conventions:

* Python numbers are modelled as `Int`/`Nat`/`ℚ` (monetary costs and
  temperatures are exact rationals; the code only ever rounds them to a fixed
  number of decimals, which we model with an explicit half-even rounding on ℚ).
* Wall-clock time is an abstract `Nat` passed to each operation; durations
  measured with `time.perf_counter` are modelled as `0` (no claim depends on
  them).
* The remote client is an oracle `Nat → ApiOutcome` indexed by the number of
  remote calls made so far; the orchestrator state counts remote calls.
* Python regular-expression searches are executed by a small backtracking
  matcher (`reSearch`) over a regex syntax tree; each deny-list pattern of the
  source is transcribed literally into that syntax.  All the searches involved
  are case-insensitive in the source (either via `re.IGNORECASE` or `(?i)`),
  so literals compare case-insensitively.  Character classes `\w`, `\d`, `\s`
  are modelled over ASCII.
* Fallible Python code (raising exceptions) is modelled with `Except`/`Option`.
-/

namespace ContentGen

/-! ## Python values

`Dict[str, Any]` variable maps are modelled as association lists over `PyVal`.
(Python `float` values are not modelled; no claim exercises them.) -/

inductive PyVal where
  | pstr (s : String)
  | pint (n : Int)
  | pbool (b : Bool)
  | plist (l : List PyVal)
  | pdict (l : List (String × PyVal))
  | pnone

/-- Python `k in d` on an association list. -/
def assocHas {α : Type} (l : List (String × α)) (k : String) : Bool :=
  l.any (fun p => p.1 == k)

/-- The value bound to `k`, Python `d[k]` / `d.get(k)`. -/
def assocFind {α : Type} (l : List (String × α)) (k : String) : Option α :=
  match l with
  | [] => none
  | (k', v) :: rest => if k' == k then some v else assocFind rest k

/-- Python dict assignment `d[k] = v`: an existing key keeps its position and
gets the new value, a new key is appended at the end. -/
def assocSet {α : Type} (l : List (String × α)) (k : String) (v : α) :
    List (String × α) :=
  match l with
  | [] => [(k, v)]
  | (k', v') :: rest =>
    if k' == k then (k', v) :: rest else (k', v') :: assocSet rest k v

/-! ## String helpers mirroring Python primitives -/

/-- Python `str(x)` for the `PyVal` universe (lists/dicts rendered in Python
`repr` style; only string values flow through the claims). -/
def pyStr : PyVal → String
  | .pstr s => s
  | .pint n => toString n
  | .pbool b => if b then "True" else "False"
  | .pnone => "None"
  | .plist _ => "[...]"
  | .pdict _ => "\x7b...\x7d"

/-- Python `str(list_of_strings)`: `['a', 'b']`. -/
def pyStrList (l : List String) : String :=
  "[" ++ String.intercalate ", " (l.map (fun s => "'" ++ s ++ "'")) ++ "]"

/-- `value.replace("{", "{{")` on character lists. -/
def dOpenL (cs : List Char) : List Char :=
  cs.foldr (fun c acc => if c = '{' then '{' :: '{' :: acc else c :: acc) []

/-- `value.replace("}", "}}")` on character lists. -/
def dCloseL (cs : List Char) : List Char :=
  cs.foldr (fun c acc => if c = '}' then '}' :: '}' :: acc else c :: acc) []

/-- `_sanitize_value`'s escaping step: `v.replace("{", "{{").replace("}", "}}")`. -/
def doubleBraces (s : String) : String := String.mk (dCloseL (dOpenL s.data))

/-- One pass of `v.replace("{{", "{")`: collapse doubled opening braces,
scanning left-to-right and non-overlapping, like Python `str.replace`. -/
def undoubleOpenL : List Char → List Char
  | [] => []
  | [c] => [c]
  | c1 :: c2 :: rest =>
    if c1 = '{' ∧ c2 = '{' then '{' :: undoubleOpenL rest
    else c1 :: undoubleOpenL (c2 :: rest)

/-- One pass of `v.replace("}}", "}")`. -/
def undoubleCloseL : List Char → List Char
  | [] => []
  | [c] => [c]
  | c1 :: c2 :: rest =>
    if c1 = '}' ∧ c2 = '}' then '}' :: undoubleCloseL rest
    else c1 :: undoubleCloseL (c2 :: rest)

/-- The un-escaping applied by `PromptTemplate.generate` just before
substitution: `v.replace("{{", "{").replace("}}", "}")`. -/
def unescapeBraces (s : String) : String :=
  String.mk (undoubleCloseL (undoubleOpenL s.data))

/-- `[a-zA-Z0-9_]`, Python `\w` (ASCII). -/
def isWordChar (c : Char) : Bool := c.isAlphanum || c == '_'

/-- Python `\s` (ASCII). -/
def isSpaceChar (c : Char) : Bool :=
  c == ' ' || c == '\t' || c == '\n' || c == '\r' || c == '\x0b' || c == '\x0c'

/-- Python `str.strip()` with no argument (whitespace, ASCII model). -/
def pyStrip (s : String) : String :=
  String.mk (((s.data.dropWhile isSpaceChar).reverse.dropWhile isSpaceChar).reverse)

/-! ## A small regular-expression engine

Backtracking matcher in continuation-passing style with explicit fuel (the
fuel is sized so that it never runs out on the searches performed).  All
searches in scope are case-insensitive, so `reLit` compares characters
case-insensitively. -/

inductive RE where
  | eps
  | test (f : Char → Bool)
  | wordB
  | cat (a b : RE)
  | alt (a b : RE)
  | star (a : RE)

def reLit (c : Char) : RE := .test (fun x => x.toLower == c.toLower)

def reStr (s : String) : RE := s.data.foldr (fun c r => .cat (reLit c) r) .eps

def reSeq (l : List RE) : RE := l.foldr .cat .eps

def reFail : RE := .test (fun _ => false)

def reAlts (l : List RE) : RE := l.foldr .alt reFail

def rePlus (r : RE) : RE := .cat r (.star r)

def reOpt (r : RE) : RE := .alt r .eps

/-- `.` (no DOTALL): any character but newline. -/
def reDot : RE := .test (fun c => c != '\n')

/-- `.` under DOTALL: any character. -/
def reDotNL : RE := .test (fun _ => true)

def reWord : RE := .test isWordChar

def reSpace : RE := .test isSpaceChar

def reDigit : RE := .test (fun c => c.isDigit)

/-- `['\"]` — a single or double quote. -/
def reQuote : RE := .test (fun c => c == '\'' || c == '"')

def reSize : RE → Nat
  | .eps => 1
  | .test _ => 1
  | .wordB => 1
  | .cat a b => reSize a + reSize b + 1
  | .alt a b => reSize a + reSize b + 1
  | .star a => reSize a + 1

/-- Word/non-word status of an optional character (`\b` semantics: out of
bounds counts as non-word). -/
def wordStatus : Option Char → Bool
  | none => false
  | some c => isWordChar c

/-- CPS matcher: `reMatch fuel r prev s k` attempts to match `r` at the front
of `s` (with `prev` the character just before the current position, for `\b`)
and passes the remainder to the continuation `k`. -/
def reMatch : Nat → RE → Option Char → List Char → (Option Char → List Char → Bool) → Bool
  | 0, _, _, _, _ => false
  | fuel + 1, r, prev, s, k =>
    match r with
    | .eps => k prev s
    | .test f =>
      match s with
      | [] => false
      | c :: rest => f c && k (some c) rest
    | .wordB =>
      (wordStatus prev != wordStatus s.head?) && k prev s
    | .cat a b => reMatch fuel a prev s (fun p' s' => reMatch fuel b p' s' k)
    | .alt a b => reMatch fuel a prev s k || reMatch fuel b prev s k
    | .star a =>
      k prev s ||
        reMatch fuel a prev s
          (fun p' s' =>
            if s'.length < s.length then reMatch fuel (.star a) p' s' k else false)

/-- Try to match `r` at the current position or at any later position. -/
def reSearchFrom (fuel : Nat) (r : RE) : Option Char → List Char → Bool
  | prev, s =>
    reMatch fuel r prev s (fun _ _ => true) ||
      match s with
      | [] => false
      | c :: rest => reSearchFrom fuel r (some c) rest

/-- Python `re.search(pattern, s) is not None` (case-insensitive). -/
def reSearch (r : RE) (s : String) : Bool :=
  reSearchFrom ((reSize r + 2) * (s.data.length + 4)) r none s.data

/-! ## Deny-list patterns

Transcriptions of `utils.SQL_INJECTION_PATTERNS` (searched with
`re.IGNORECASE` by `validate_input`) and of
`prompt_engine.DANGEROUS_PATTERNS` (all compiled with `(?i)`;
the `<script>` pattern also with `re.DOTALL`). -/

/-- `utils.SQL_INJECTION_PATTERNS`, in source order. -/
def sqlInjectionPatterns : List RE :=
  [ -- (\bSELECT\s+.+\s+FROM\s+\w+)
    reSeq [.wordB, reStr "SELECT", rePlus reSpace, rePlus reDot, rePlus reSpace,
           reStr "FROM", rePlus reSpace, rePlus reWord],
    -- (\b(INSERT|UPDATE|DELETE)\s+.*(INTO|FROM|SET)\s+\w+)
    reSeq [.wordB, reAlts [reStr "INSERT", reStr "UPDATE", reStr "DELETE"],
           rePlus reSpace, .star reDot,
           reAlts [reStr "INTO", reStr "FROM", reStr "SET"],
           rePlus reSpace, rePlus reWord],
    -- (\bDROP\s+(TABLE|DATABASE|INDEX|VIEW)\b)
    reSeq [.wordB, reStr "DROP", rePlus reSpace,
           reAlts [reStr "TABLE", reStr "DATABASE", reStr "INDEX", reStr "VIEW"], .wordB],
    -- (\bEXEC(UTE)?\s*\()
    reSeq [.wordB, reStr "EXEC", reOpt (reStr "UTE"), .star reSpace, reLit '('],
    -- (\bCREATE\s+(TABLE|DATABASE|INDEX|VIEW)\b)
    reSeq [.wordB, reStr "CREATE", rePlus reSpace,
           reAlts [reStr "TABLE", reStr "DATABASE", reStr "INDEX", reStr "VIEW"], .wordB],
    -- (\bALTER\s+(TABLE|DATABASE)\b)
    reSeq [.wordB, reStr "ALTER", rePlus reSpace,
           reAlts [reStr "TABLE", reStr "DATABASE"], .wordB],
    -- (;\s*--)
    reSeq [reLit ';', .star reSpace, reStr "--"],
    -- (/\*.*\*/)
    reSeq [reLit '/', reLit '*', .star reDot, reLit '*', reLit '/'],
    -- (\bOR\b\s+['\"]\d+['\"]?\s*=\s*['\"]\d+)
    reSeq [.wordB, reStr "OR", .wordB, rePlus reSpace, reQuote, rePlus reDigit,
           reOpt reQuote, .star reSpace, reLit '=', .star reSpace, reQuote, rePlus reDigit],
    -- (\bAND\b\s+['\"]\d+['\"]?\s*=\s*['\"]\d+)
    reSeq [.wordB, reStr "AND", .wordB, rePlus reSpace, reQuote, rePlus reDigit,
           reOpt reQuote, .star reSpace, reLit '=', .star reSpace, reQuote, rePlus reDigit],
    -- ('\s*OR\s+'\w*'\s*=\s*'\w*)
    reSeq [reLit '\'', .star reSpace, reStr "OR", rePlus reSpace, reLit '\'',
           .star reWord, reLit '\'', .star reSpace, reLit '=', .star reSpace,
           reLit '\'', .star reWord],
    -- (;\s*(DROP|DELETE|TRUNCATE|INSERT|UPDATE)\b)
    reSeq [reLit ';', .star reSpace,
           reAlts [reStr "DROP", reStr "DELETE", reStr "TRUNCATE",
                   reStr "INSERT", reStr "UPDATE"], .wordB],
    -- (UNION\s+(ALL\s+)?SELECT)
    reSeq [reStr "UNION", rePlus reSpace, reOpt (reSeq [reStr "ALL", rePlus reSpace]),
           reStr "SELECT"],
    -- (xp_\w+)
    reSeq [reStr "xp_", rePlus reWord] ]

instance : Inhabited RE := ⟨RE.eps⟩

/-- `prompt_engine.DANGEROUS_PATTERNS`, in source order. -/
def dangerousPatterns : List RE :=
  [ -- (?i)(drop|delete|truncate|alter|insert|update)\s+(table|database|schema)
    reSeq [reAlts [reStr "drop", reStr "delete", reStr "truncate",
                   reStr "alter", reStr "insert", reStr "update"],
           rePlus reSpace, reAlts [reStr "table", reStr "database", reStr "schema"]],
    -- (?i)<script[^>]*>.*?</script>   (DOTALL; laziness of .*? does not affect
    -- whether a match exists, which is all `pattern.search` is used for)
    reSeq [reStr "<script", .star (.test (fun c => c != '>')), reLit '>',
           .star reDotNL, reStr "</script>"],
    -- (?i)javascript:
    reStr "javascript:",
    -- (?i)on\w+\s*=
    reSeq [reStr "on", rePlus reWord, .star reSpace, reLit '='] ]

/-! ## `utils.validate_input` -/

/-- `MAX_STRING_LENGTH` of `utils.py`. -/
def MAX_STRING_LENGTH : Nat := 10000

/-- `re.match(r'^[a-zA-Z0-9_]+$', name)` — anchored at the start; `$` also
matches just before a single trailing newline, as in Python. -/
def templateNameOk (s : String) : Bool :=
  let cs := s.data
  let body := if cs.getLast? == some '\n' then cs.dropLast else cs
  !body.isEmpty && body.all isWordChar

/-- The per-variable loop of `validate_input`, returning the first error
message (variable names are `String`s by construction, so the
name-must-be-a-string branch is unreachable in the model). -/
def validateVarsLoop : List (String × PyVal) → Option String
  | [] => none
  | (name, v) :: rest =>
    if name = "" then some "Variable name cannot be empty"
    else
      match v with
      | .pnone => some ("Variable '" ++ name ++ "' cannot be None")
      | .pstr s =>
        if pyStrip s = "" then
          some ("Variable '" ++ name ++ "' cannot be empty or whitespace-only")
        else if s.length > MAX_STRING_LENGTH then
          some ("Variable '" ++ name ++ "' exceeds maximum length of 10000 characters (got "
            ++ toString s.length ++ ")")
        else if sqlInjectionPatterns.any (fun p => reSearch p s) then
          some ("Variable '" ++ name ++ "' contains potential SQL injection pattern")
        else validateVarsLoop rest
      | .pint n =>
        -- bool is excluded in the source via `isinstance(var_value, bool)`
        if n.natAbs > 10 ^ 12 then
          some ("Variable '" ++ name ++ "' integer value is unreasonably large")
        else validateVarsLoop rest
      | .pbool _ => validateVarsLoop rest
      | .plist l =>
        if l.isEmpty then some ("Variable '" ++ name ++ "' list cannot be empty")
        else if l.length > 1000 then
          some ("Variable '" ++ name ++ "' list is too large (max 1000 items)")
        else
          match checkListItems name 0 l with
          | some e => some e
          | none => validateVarsLoop rest
      | .pdict _ => validateVarsLoop rest
where
  /-- The inner loop over list items: only string items are length-checked. -/
  checkListItems (name : String) (i : Nat) : List PyVal → Option String
  | [] => none
  | .pstr s :: rest =>
    if s.length > MAX_STRING_LENGTH then
      some ("Variable '" ++ name ++ "' list item " ++ toString i
        ++ " exceeds maximum length of 10000 characters")
    else checkListItems name (i + 1) rest
  | _ :: rest => checkListItems name (i + 1) rest

/-- `utils.validate_input(template_name, variables)`; `none` means valid,
`some msg` the error message of the `(False, msg)` return. -/
def validateInput (templateName : String) (vars : List (String × PyVal)) :
    Option String :=
  if templateName = "" then some "Template name cannot be empty"
  else if !templateNameOk templateName then
    some ("Template name must contain only alphanumeric characters "
      ++ "and underscores (a-z, A-Z, 0-9, _)")
  else validateVarsLoop vars

-- engine sanity checks
example : reSearch (sqlInjectionPatterns.get! 2) "please DROP  table users" = true := by decide
example : reSearch (sqlInjectionPatterns.get! 2) "dewdrop tables" = false := by decide
example : validateInput "product_description" [("product_name", .pstr "X")] = none := by decide
example : validateInput "bad name" [] ≠ none := by decide
example : validateInput "test" [("id", .pstr "1 OR '1'='1'")] ≠ none := by decide

/-! ## `prompt_engine.PromptTemplate` -/

/-- `MAX_TEMPLATE_LENGTH` of `prompt_engine.py`. -/
def MAX_TEMPLATE_LENGTH : Nat := 10000

/-- `MAX_VARIABLE_LENGTH` of `prompt_engine.py`. -/
def MAX_VARIABLE_LENGTH : Nat := 5000

/-- `MAX_NAME_LENGTH` of `prompt_engine.py`. -/
def MAX_NAME_LENGTH : Nat := 100

/-- The `PromptTemplate` dataclass (field defaults as in the source;
`DEFAULT_MAX_TOKENS = 500`, `DEFAULT_TEMPERATURE = 0.7`,
`Tone.PROFESSIONAL.value = "professional"`, `DEFAULT_VERSION = "1.0.0"`). -/
structure PromptTemplate where
  name : String
  category : String
  template : String
  systemInstructions : String
  defaultTone : String := "professional"
  requiredVariables : List String := []
  optionalVariables : List (String × String) := []
  maxTokensRecommendation : Int := 500
  temperatureRecommendation : ℚ := 7/10
  version : String := "1.0.0"
  description : String := ""
  tags : List String := []
  abTestGroup : Option String := none
  enabled : Bool := true

/-- `PromptTemplate._validate_template`: the first failing structural check,
as the message of the raised `TemplateValidationError` (`none` = no error;
the undeclared- and unused-variable checks only log warnings and are omitted).
The source interpolates the offending value into the temperature message;
the model keeps the fixed prefix only. -/
def templateValidationError (t : PromptTemplate) : Option String :=
  if t.name = "" then some "Template name must be a non-empty string"
  else if t.name.length > MAX_NAME_LENGTH then
    some "Template name exceeds maximum length of 100"
  else if t.template = "" then some "Template must be a non-empty string"
  else if t.template.length > MAX_TEMPLATE_LENGTH then
    some "Template exceeds maximum length of 10000"
  else if ¬(0 ≤ t.temperatureRecommendation ∧ t.temperatureRecommendation ≤ 2) then
    some "Temperature must be between 0.0 and 2.0"
  else if t.maxTokensRecommendation < 1 then
    some "max_tokens_recommendation must be at least 1"
  else none

/-- Constructing a `PromptTemplate` (`__post_init__` runs
`_validate_template` and raises on violation). -/
def mkPromptTemplate (t : PromptTemplate) : Except String PromptTemplate :=
  match templateValidationError t with
  | some msg => .error msg
  | none => .ok t

/-- `PromptTemplate.validate_variables`: `(is_valid, missing)` where a
required variable is missing when absent, `None`, or a blank string. -/
def validateVariables (t : PromptTemplate) (vars : List (String × PyVal)) :
    Bool × List String :=
  let missing := t.requiredVariables.filter (fun v =>
    match assocFind vars v with
    | none => true
    | some .pnone => true
    | some (.pstr s) => pyStrip s = ""
    | some _ => false)
  (missing.isEmpty, missing)

/-- `str(value) if value is not None else ""` of `_sanitize_value` and of the
non-sanitizing branch of `PromptTemplate.generate`. -/
def strOfValue : PyVal → String
  | .pnone => ""
  | v => pyStr v

/-- `PromptTemplate._sanitize_value`: stringify, length-check, deny-list
check, then escape braces.  `.error` is the message of the raised
`SanitizationError`. -/
def sanitizeValue (v : PyVal) : Except String String :=
  let s := strOfValue v
  if s.length > MAX_VARIABLE_LENGTH then
    .error "Variable value exceeds maximum length of 5000"
  else if dangerousPatterns.any (fun p => reSearch p s) then
    .error "Input contains potentially malicious content"
  else .ok (doubleBraces s)

/-- The caller-variable override loop of `PromptTemplate.generate`
(each value sanitized when `sanitize`, else stringified). -/
def overrideVars (m : List (String × String)) (vars : List (String × PyVal))
    (sanitize : Bool) : Except String (List (String × String)) :=
  match vars with
  | [] => .ok m
  | (k, v) :: rest =>
    if sanitize then
      match sanitizeValue v with
      | .error e => .error e
      | .ok w => overrideVars (assocSet m k w) rest sanitize
    else
      overrideVars (assocSet m k (strOfValue v)) rest sanitize

/-- The variable-merging step of `PromptTemplate.generate`: optional-variable
defaults, then the `tone` default if neither side provides it, then the
caller's values. -/
def buildMergedVars (t : PromptTemplate) (vars : List (String × PyVal))
    (sanitize : Bool) : Except String (List (String × String)) :=
  let merged0 := t.optionalVariables
  let merged1 :=
    if !(assocHas merged0 "tone") && !(assocHas vars "tone") then
      merged0 ++ [("tone", t.defaultTone)]
    else merged0
  overrideVars merged1 vars sanitize

deriving instance DecidableEq for Except

/-- Errors of Python `str.format`. -/
inductive FmtErr where
  | keyError (k : String)
  | valueError (msg : String)
deriving DecidableEq

/-- The scanner of Python `str.format(**vars)` restricted to simple
`{identifier}` fields (the only field shape the repository's templates use):
`{{`/`}}` are literal braces, `{name}` is looked up in the map (`KeyError` if
absent), a lone brace is a `ValueError`.  Fuel is one more than the length of
the format string, so it cannot run out. -/
def pyFormatGo (m : List (String × String)) :
    Nat → List Char → Except FmtErr String
  | 0, _ => .error (.valueError "format fuel exhausted")
  | _ + 1, [] => .ok ""
  | fuel + 1, c :: rest =>
    if c = '{' then
      match rest with
      | '{' :: rest' => (pyFormatGo m fuel rest').map (fun t => "\x7b" ++ t)
      | _ =>
        let fieldCs := rest.takeWhile (fun d => d ≠ '}')
        match rest.dropWhile (fun d => d ≠ '}') with
        | '}' :: rest'' =>
          match assocFind m (String.mk fieldCs) with
          | some v => (pyFormatGo m fuel rest'').map (fun t => v ++ t)
          | none => .error (.keyError (String.mk fieldCs))
        | _ => .error (.valueError "Single '\x7b' encountered in format string")
    else if c = '}' then
      match rest with
      | '}' :: rest' => (pyFormatGo m fuel rest').map (fun t => "\x7d" ++ t)
      | _ => .error (.valueError "Single '\x7d' encountered in format string")
    else (pyFormatGo m fuel rest).map (fun t => String.mk (c :: t.data))

/-- `template.format(**final_vars)`. -/
def pyFormat (tmpl : String) (m : List (String × String)) : Except FmtErr String :=
  pyFormatGo m (tmpl.data.length + 1) tmpl.data

/-- The ways `PromptTemplate.generate` fails: `VariableValidationError`,
`SanitizationError` (not caught by the orchestrator's inner handler), and the
uncaught `ValueError` a malformed format string would raise. -/
inductive RenderErr where
  | varValidation (msg : String)
  | sanitization (msg : String)
  | otherError (msg : String)
deriving DecidableEq

/-- `PromptTemplate.generate(variables, sanitize, include_system)`. -/
def templateGenerate (t : PromptTemplate) (vars : List (String × PyVal))
    (sanitize includeSystem : Bool) : Except RenderErr String :=
  let vv := validateVariables t vars
  if !vv.1 then
    .error (.varValidation ("Missing required variables for template '"
      ++ t.name ++ "': " ++ pyStrList vv.2))
  else
    match buildMergedVars t vars sanitize with
    | .error e => .error (.sanitization e)
    | .ok merged =>
      -- unescape the sanitized values before substitution
      let finalVars := merged.map (fun p => (p.1, unescapeBraces p.2))
      match pyFormat t.template finalVars with
      | .error (.keyError k) =>
        .error (.varValidation ("Template variable '" ++ k
          ++ "' not provided and has no default"))
      | .error (.valueError msg) => .error (.otherError msg)
      | .ok s =>
        .ok (if includeSystem && t.systemInstructions ≠ "" then
               "[System: " ++ t.systemInstructions ++ "]\n\n" ++ s
             else s)

/-! ## `prompt_engine.PromptEngine` (template store) -/

/-- The template store: name → template mapping plus the active-name set
(the per-name usage counters and the `lru_cache` round-trip of
`get_template`, which returns an equal template, are omitted). -/
structure PromptEngine where
  templates : List (String × PromptTemplate) := []
  activeTemplates : List String := []

/-- Python `set.add` on a list-modelled set. -/
def setAdd (l : List String) (n : String) : List String :=
  if l.contains n then l else l ++ [n]

/-- Python `set.discard`. -/
def setDiscard (l : List String) (n : String) : List String :=
  l.filter (fun x => x ≠ n)

/-- `PromptEngine.register_template` on an already-constructed template:
insert/overwrite by name and maintain the active set. -/
def registerTemplate (e : PromptEngine) (t : PromptTemplate) : PromptEngine :=
  { templates := assocSet e.templates t.name t
    activeTemplates :=
      if t.enabled then setAdd e.activeTemplates t.name
      else setDiscard e.activeTemplates t.name }

/-- `PromptEngine.get_template`: `none` models the raised
`TemplateNotFoundError`. -/
def getTemplate (e : PromptEngine) (name : String) : Option PromptTemplate :=
  assocFind e.templates name

/-- Constructing a template from fields and registering it (the
`create_template` → `register_template` path): a validation error leaves the
store untouched because the constructor raises before registration. -/
def createAndRegister (e : PromptEngine) (t : PromptTemplate) :
    Except String PromptTemplate × PromptEngine :=
  match mkPromptTemplate t with
  | .error msg => (.error msg, e)
  | .ok t' => (.ok t', registerTemplate e t')

/-- The built-in `product_description` template, field for field from
`PromptEngine._create_builtin_templates` (the other nine built-ins are not
referenced by any claim and are omitted from the model's store). -/
def productDescriptionTemplate : PromptTemplate :=
  { name := "product_description"
    category := "marketing"
    template := "Write a \x7btone\x7d product description for \x7bproduct_name\x7d. Key features: \x7bfeatures\x7d. Target audience: \x7baudience\x7d. Length: \x7blength\x7d words. Include a compelling call-to-action."
    systemInstructions := "You are an expert e-commerce copywriter"
    defaultTone := "persuasive"
    requiredVariables := ["product_name", "features", "audience"]
    optionalVariables := [("tone", "persuasive"), ("length", "100")]
    maxTokensRecommendation := 300
    temperatureRecommendation := 7/10
    version := "1.0.0"
    description := "Generate compelling product descriptions for e-commerce"
    tags := ["e-commerce", "copywriting", "product", "marketing"] }

/-- The engine produced by `create_engine_with_defaults`, restricted to the
built-in template the claims exercise. -/
def builtinEngine : PromptEngine :=
  registerTemplate {} productDescriptionTemplate

-- rendering sanity checks
example :
    templateGenerate
      { name := "greet", category := "general", template := "Hello \x7bname\x7d!",
        systemInstructions := "T", requiredVariables := ["name"] }
      [("name", .pstr "Alice")] true false = .ok "Hello Alice!" := by decide
example :
    templateGenerate productDescriptionTemplate [("product_name", .pstr "X")]
        true true =
      .error (.varValidation
        ("Missing required variables for template 'product_description': "
          ++ "['features', 'audience']")) := by decide

/-! ## `api_manager` — retry with backoff and parameter defaulting -/

/-- `MAX_RETRY_ATTEMPTS` of `api_manager.py`. -/
def MAX_RETRY_ATTEMPTS : Nat := 3

/-- `BASE_RETRY_DELAY` (seconds). -/
def BASE_RETRY_DELAY : ℚ := 2

/-- `RETRY_BACKOFF_MULTIPLIER`. -/
def RETRY_BACKOFF_MULTIPLIER : ℚ := 2

/-- Exceptions the OpenAI client can raise inside `_make_api_call`. -/
inductive RawErr where
  | rateLimit
  | connection
  | auth
  | apiError (msg : String)
  | otherExc (msg : String)
deriving DecidableEq

/-- Exceptions visible to `retry_with_backoff` after `_make_api_call`'s
classification, plus the wrapper's terminal exceptions. -/
inductive ApiExc where
  | rateLimitErr
  | connectionErr
  | apiKeyInvalid
  | apiServerError (msg : String)
  | requestTimeout
  | unexpected (msg : String)
  | rateLimitExceeded
  | apiConnectionFailed
deriving DecidableEq

/-- Python `sub in s` (substring containment). -/
def containsSub (s sub : String) : Bool :=
  let rec go : List Char → Bool
    | [] => sub.data.isPrefixOf []
    | c :: rest => sub.data.isPrefixOf (c :: rest) || go rest
  go s.data

/-- Python `s.lower()` (ASCII model). -/
def pyLower (s : String) : String := String.mk (s.data.map Char.toLower)

/-- The exception classification of `_make_api_call`: authentication errors
become `APIKeyInvalidError`, rate-limit and connection errors are re-raised
raw (so the retry decorator sees them), other OpenAI API errors become
`APIServerError`, and a generic exception whose text mentions "timeout"
becomes `RequestTimeoutError`. -/
def classifyRaw : RawErr → ApiExc
  | .rateLimit => .rateLimitErr
  | .connection => .connectionErr
  | .auth => .apiKeyInvalid
  | .apiError m => .apiServerError m
  | .otherExc m =>
    if containsSub (pyLower m) "timeout" then .requestTimeout else .unexpected m

/-- The decorator's `retryable_exceptions = (RateLimitError, APIConnectionError)`. -/
def isTransient : ApiExc → Bool
  | .rateLimitErr => true
  | .connectionErr => true
  | _ => false

/-- The post-loop mapping of `retry_with_backoff`: after exhaustion, a last
`RateLimitError` raises `RateLimitExceeded`, a last `APIConnectionError`
raises `APIConnectionFailed`, anything else is re-raised as-is. -/
def exhaustMap : ApiExc → ApiExc
  | .rateLimitErr => .rateLimitExceeded
  | .connectionErr => .apiConnectionFailed
  | e => e

/-- The attempt loop of `retry_with_backoff`: `left` attempts remain, `made`
calls were made, `delay` is the next sleep, `acc` the sleeps performed so
far, `lastE` the last retryable exception.  `.inl` is a normal exit (success
or a non-retryable exception propagating), `.inr` is exhaustion. -/
def retryGo (call : Nat → Except ApiExc α) (mult : ℚ) :
    Nat → Nat → ℚ → List ℚ → ApiExc → (Except ApiExc α ⊕ ApiExc) × Nat × List ℚ
  | 0, made, _, acc, lastE => (.inr lastE, made, acc)
  | left + 1, made, delay, acc, _ =>
    match call made with
    | .ok a => (.inl (.ok a), made + 1, acc)
    | .error e =>
      if isTransient e then
        -- sleep (and multiply the delay) only when attempts remain
        if left = 0 then retryGo call mult left (made + 1) delay acc e
        else retryGo call mult left (made + 1) (delay * mult) (acc ++ [delay]) e
      else (.inl (.error e), made + 1, acc)

/-- `retry_with_backoff(max_attempts, base_delay, backoff_multiplier)` wrapped
around a call: returns the final outcome, the number of calls made, and the
list of back-off sleeps performed (in order). -/
def retryWithBackoffCall (call : Nat → Except ApiExc α) (maxAttempts : Nat)
    (baseDelay mult : ℚ) : Except ApiExc α × Nat × List ℚ :=
  match retryGo call mult maxAttempts 0 baseDelay [] (.unexpected "") with
  | (.inl r, n, ds) => (r, n, ds)
  | (.inr lastE, n, ds) => (.error (exhaustMap lastE), n, ds)

/-- `OpenAIManager._make_api_call` as decorated: the raw client call (an
oracle indexed by attempt number) classified by `classifyRaw` and retried by
`retry_with_backoff` with the module constants. -/
def makeApiCall (rawCall : Nat → Except RawErr α) : Except ApiExc α × Nat × List ℚ :=
  retryWithBackoffCall (fun n => (rawCall n).mapError classifyRaw)
    MAX_RETRY_ATTEMPTS BASE_RETRY_DELAY RETRY_BACKOFF_MULTIPLIER

/-- Python `x or y` for an optional rational argument: `None` and `0` are
falsy, so both select the default. -/
def pyOrRat (x : Option ℚ) (dflt : ℚ) : ℚ :=
  match x with
  | none => dflt
  | some v => if v = 0 then dflt else v

/-- Python `x or y` for an optional integer argument. -/
def pyOrInt (x : Option Int) (dflt : Int) : Int :=
  match x with
  | none => dflt
  | some v => if v = 0 then dflt else v

/-- The parameter-defaulting step of `OpenAIManager.generate_content`
(`max_tokens = max_tokens or self.max_tokens`;
`temperature = temperature or self.temperature`): the effective
`(max_tokens, temperature)` pair passed on to `_make_api_call`. -/
def effectiveGenParams (mgrMaxTokens : Int) (mgrTemperature : ℚ)
    (maxTokens : Option Int) (temperature : Option ℚ) : Int × ℚ :=
  (pyOrInt maxTokens mgrMaxTokens, pyOrRat temperature mgrTemperature)

/-! ## `content_generator` — records, LRU cache, orchestrator state -/

/-- `MAX_HISTORY_SIZE`. -/
def MAX_HISTORY_SIZE : Nat := 1000

/-- `MAX_CACHE_SIZE`. -/
def MAX_CACHE_SIZE : Nat := 100

/-- `CACHE_TTL_SECONDS`. -/
def CACHE_TTL_SECONDS : Nat := 3600

/-- `DEFAULT_RETRY_ATTEMPTS` (the orchestrator's own blanket retry). -/
def DEFAULT_RETRY_ATTEMPTS : Nat := 1

/-- The `tokens_used` breakdown. -/
structure TokensUsed where
  prompt : Nat := 0
  completion : Nat := 0
  total : Nat := 0
deriving DecidableEq

/-- The result dictionary built by `ContentGenerator.generate`.  `error = ""`
models an absent `error` key; `generationTime` is wall-clock time, modelled
as `0` throughout. -/
structure ResultRecord where
  success : Bool
  content : String
  templateUsed : String
  vars : List (String × PyVal)
  timestamp : Nat
  requestId : Nat
  model : String
  tokensUsed : TokensUsed
  cost : ℚ
  cached : Bool
  generationTime : ℚ
  error : String

/-- The dictionary returned by `OpenAIManager.generate_content` (the fields
the orchestrator reads). -/
structure ApiResult where
  success : Bool
  content : String := ""
  model : String := ""
  tokensUsed : TokensUsed := {}
  cost : ℚ := 0
  error : String := ""

/-- One call to `api_manager.generate_content` either returns a result
dictionary or raises (e.g. `InvalidPromptError`), in which case the
orchestrator's retry loop records `str(e)`. -/
inductive ApiOutcome where
  | ret (r : ApiResult)
  | exc (msg : String)

/-- An `LRUCache` entry: payload plus expiry instant (`created_at` is never
read back and is omitted). -/
structure CacheEntry where
  key : String
  data : ResultRecord
  expiresAt : Nat

/-- The mutable state of a `ContentGenerator`: history, LRU cache with its
hit/miss counters, the orchestrator's own cache counters, the number of
remote-client calls made (the model's call counter for the oracle), the
running cost, and a counter standing in for `generate_request_id`. -/
structure GenState where
  history : List ResultRecord := []
  cache : List CacheEntry := []
  lruHits : Nat := 0
  lruMisses : Nat := 0
  cacheChecks : Nat := 0
  cacheHits : Nat := 0
  apiCalls : Nat := 0
  totalCost : ℚ := 0
  nextRequestId : Nat := 0

/-- Result of `LRUCache.get`: payload (if any), updated entry list and
counters. -/
structure LruGetResult where
  found : Option ResultRecord
  cache : List CacheEntry
  hits : Nat
  misses : Nat

/-- `LRUCache.get(key)`: a missing key is a miss; an expired entry is deleted
and counts as a miss; a live entry moves to the most-recently-used end and is
returned.  (The underlying `OrderedDict` cannot hold duplicate keys, so
removal is modelled with `filter`.) -/
def lruGet (now : Nat) (key : String) (c : List CacheEntry) (hits misses : Nat) :
    LruGetResult :=
  match c.find? (fun e => e.key == key) with
  | none => ⟨none, c, hits, misses + 1⟩
  | some e =>
    if now > e.expiresAt then
      ⟨none, c.filter (fun e' => e'.key ≠ key), hits, misses + 1⟩
    else
      ⟨some e.data, c.filter (fun e' => e'.key ≠ key) ++ [e], hits + 1, misses⟩

/-- The eviction loop of `LRUCache.set`:
`while len(cache) >= max_size: popitem(last=False)` — drop oldest entries
until fewer than `MAX_CACHE_SIZE` remain. -/
def lruEvict (c : List CacheEntry) : List CacheEntry :=
  if c.length ≥ MAX_CACHE_SIZE then c.drop (c.length - (MAX_CACHE_SIZE - 1)) else c

/-- `LRUCache.set(key, data)`: delete any existing entry for the key, evict
oldest while at capacity, append the new entry with a fresh TTL. -/
def lruSet (now : Nat) (key : String) (data : ResultRecord) (c : List CacheEntry) :
    List CacheEntry :=
  lruEvict (c.filter (fun e => e.key ≠ key)) ++ [⟨key, data, now + CACHE_TTL_SECONDS⟩]

/-- `LRUCache.hit_rate` (a percentage; `0` before any lookup). -/
def lruHitRate (hits misses : Nat) : ℚ :=
  if hits + misses > 0 then (hits : ℚ) / ((hits : ℚ) + (misses : ℚ)) * 100 else 0

/-- JSON string escaping (quotes and backslashes; enough for determinism of
the cache key). -/
def jsonEscape (s : String) : String :=
  String.mk (s.data.foldr
    (fun c acc =>
      if c = '"' then '\\' :: '"' :: acc
      else if c = '\\' then '\\' :: '\\' :: acc
      else c :: acc) [])

mutual

/-- `json.dumps` of a `PyVal` (Python default separators). -/
def pyJsonVal : PyVal → String
  | .pstr s => "\"" ++ jsonEscape s ++ "\""
  | .pint n => toString n
  | .pbool b => if b then "true" else "false"
  | .pnone => "null"
  | .plist l => "[" ++ pyJsonList l ++ "]"
  | .pdict l => "\x7b" ++ pyJsonPairs l ++ "\x7d"

/-- `json.dumps` of a list body. -/
def pyJsonList : List PyVal → String
  | [] => ""
  | [v] => pyJsonVal v
  | v :: rest => pyJsonVal v ++ ", " ++ pyJsonList rest

/-- `json.dumps` of a dict body. -/
def pyJsonPairs : List (String × PyVal) → String
  | [] => ""
  | [(k, v)] => "\"" ++ jsonEscape k ++ "\": " ++ pyJsonVal v
  | (k, v) :: rest => "\"" ++ jsonEscape k ++ "\": " ++ pyJsonVal v ++ ", " ++ pyJsonPairs rest

end

/-- Insertion into a key-sorted association list. -/
def insertByKey (p : String × PyVal) : List (String × PyVal) → List (String × PyVal)
  | [] => [p]
  | q :: rest => if p.1 ≤ q.1 then p :: q :: rest else q :: insertByKey p rest

/-- `sort_keys=True` of `json.dumps`, at the top level (no claim nests
dictionaries). -/
def sortPairsByKey (l : List (String × PyVal)) : List (String × PyVal) :=
  l.foldr insertByKey []

/-- `ContentGenerator._generate_cache_key`:
`create_hash(f"{template_name}:{json.dumps(variables, sort_keys=True, default=str)}")`.
The SHA-256 digest of `utils.create_hash` is modelled as the identity on the
hashed string (an injective stand-in; hash collisions are not modelled). -/
def genCacheKey (templateName : String) (vars : List (String × PyVal)) : String :=
  templateName ++ ":" ++ "\x7b" ++ pyJsonPairs (sortPairsByKey vars) ++ "\x7d"

/-- `ContentGenerator._add_to_history`: append, then
`while len(history) > MAX_HISTORY_SIZE: pop(0)` — keep the most recent
`MAX_HISTORY_SIZE` entries. -/
def addToHistory (h : List ResultRecord) (r : ResultRecord) : List ResultRecord :=
  let h' := h ++ [r]
  h'.drop (h'.length - MAX_HISTORY_SIZE)

/-! ## `ContentGenerator.generate` and friends -/

/-- The fixed collaborators of a `ContentGenerator`: the template engine, the
remote client (an oracle indexed by the running count of remote calls), the
output sanitiser (`utils.sanitize_output` — no claim depends on its
internals, so the model is parametric in it and every theorem holds for any
sanitiser), and whether an API manager was initialised. -/
structure GenEnv where
  engine : PromptEngine
  oracle : Nat → ApiOutcome
  sanitizeOut : String → String
  apiManagerPresent : Bool := true

/-- The API overrides split out of `**kwargs` by `generate` (the model takes
them already separated; the split itself is plain dictionary bookkeeping). -/
structure ApiOverrides where
  temperature : Option ℚ := none
  maxTokens : Option Int := none
  model : Option String := none

/-- The attempt loop of `ContentGenerator._call_api_with_retry`: each
iteration consumes one oracle outcome (one remote call); a success returns
immediately, a failed dictionary or an exception records the message as
`last_error` and retries. -/
def callApiLoop (oracle : Nat → ApiOutcome) :
    Nat → String → Nat → Option ApiResult × String × Nat
  | 0, lastErr, calls => (none, lastErr, calls)
  | left + 1, lastErr, calls =>
    match oracle calls with
    | .ret r =>
      if r.success then (some r, lastErr, calls + 1)
      else callApiLoop oracle left r.error (calls + 1)
    | .exc m => callApiLoop oracle left m (calls + 1)

/-- `ContentGenerator._call_api_with_retry`: one blanket retry when
`retry_on_failure`; on exhaustion a synthetic failed dictionary
`{'success': False, 'error': f"Failed after {attempts} attempts: {last_error}"}`. -/
def callApiWithRetry (oracle : Nat → ApiOutcome) (retryOnFailure : Bool)
    (apiCalls : Nat) : ApiResult × Nat :=
  let attempts := if retryOnFailure then DEFAULT_RETRY_ATTEMPTS + 1 else 1
  match callApiLoop oracle attempts "" apiCalls with
  | (some r, _, calls) => (r, calls)
  | (none, lastErr, calls) =>
    ({ success := false,
       error := "Failed after " ++ toString attempts ++ " attempts: " ++ lastErr },
     calls)

/-- Record a result and append it to history (the common epilogue of every
early-return branch of `generate`). -/
def finishWith (r : ResultRecord) (s : GenState) : ResultRecord × GenState :=
  (r, { s with history := addToHistory s.history r })

/-- `ContentGenerator.generate(template_name, variables, use_cache,
retry_on_failure, **overrides)` at instant `now`: validation → template
lookup → rendering → cache lookup → remote call (with blanket retry) →
record.  Every code path returns a record and appends it to history; the
registered callbacks receive the result but cannot alter it (callback
exceptions are swallowed) and are omitted. -/
def generate (env : GenEnv) (templateName : String) (vars : List (String × PyVal))
    (useCache retryOnFailure : Bool) (overrides : ApiOverrides) (now : Nat)
    (s : GenState) : ResultRecord × GenState :=
  let requestId := s.nextRequestId
  let s := { s with nextRequestId := s.nextRequestId + 1 }
  let base : ResultRecord :=
    { success := false, content := "", templateUsed := templateName, vars := vars,
      timestamp := now, requestId := requestId, model := "", tokensUsed := {},
      cost := 0, cached := false, generationTime := 0, error := "" }
  match validateInput templateName vars with
  | some msg => finishWith { base with error := "Validation failed: " ++ msg } s
  | none =>
  match getTemplate env.engine templateName with
  | none => finishWith { base with error := "Template not found: " ++ templateName } s
  | some t =>
  match templateGenerate t vars true true with
  | .error (.varValidation m) =>
    finishWith { base with error := "Variable validation failed: " ++ m } s
  | .error (.sanitization m) =>
    -- a SanitizationError is not caught by the inner `except
    -- VariableValidationError`; it reaches the outer `except Exception`
    finishWith { base with error := "Unexpected error: " ++ m } s
  | .error (.otherError m) =>
    finishWith { base with error := "Unexpected error: " ++ m } s
  | .ok _prompt =>
  let key := genCacheKey templateName vars
  let s := { s with cacheChecks := s.cacheChecks + 1 }
  let gr :=
    if useCache then lruGet now key s.cache s.lruHits s.lruMisses
    else ⟨none, s.cache, s.lruHits, s.lruMisses⟩
  let s := { s with cache := gr.cache, lruHits := gr.hits, lruMisses := gr.misses }
  match gr.found with
  | some data =>
    let r := { data with
               requestId := requestId, timestamp := now, cached := true,
               generationTime := 0 }
    -- `cached_result` is the dictionary stored in the cache: the metadata
    -- refresh mutates the cache entry in place
    let s := { s with
               cache := s.cache.map (fun e => if e.key == key then { e with data := r } else e),
               cacheHits := s.cacheHits + 1 }
    finishWith r s
  | none =>
  if !env.apiManagerPresent then
    finishWith { base with error := "API manager not initialized" } s
  else
    -- template-recommended temperature/max_tokens unless overridden; they are
    -- forwarded to the remote client, whose response the oracle abstracts
    let _ov : ApiOverrides :=
      { overrides with
        temperature := some (overrides.temperature.getD t.temperatureRecommendation),
        maxTokens := some (overrides.maxTokens.getD t.maxTokensRecommendation) }
    let res := callApiWithRetry env.oracle retryOnFailure s.apiCalls
    let apiR := res.1
    let s := { s with apiCalls := res.2 }
    if !apiR.success then
      finishWith { base with error := apiR.error } s
    else
      let r := { base with
                 success := true, content := env.sanitizeOut apiR.content,
                 model := apiR.model, tokensUsed := apiR.tokensUsed, cost := apiR.cost,
                 cached := false }
      let s := { s with totalCost := s.totalCost + r.cost }
      let s := { s with cache := lruSet now key r s.cache }
      finishWith r s

/-- `ContentGenerator.clear_cache`: empties the LRU cache, returning the
number of entries cleared. -/
def clearCache (s : GenState) : Nat × GenState :=
  (s.cache.length, { s with cache := [] })

/-- `ContentGenerator.clear_history`. -/
def clearHistory (s : GenState) : Nat × GenState :=
  (s.history.length, { s with history := [] })

/-- `ContentGenerator.get_history(limit, template_filter, start_date,
success_only)`.  Timestamps are abstract instants, so the ISO-string
comparison of the source is `≤` on `Nat`; Python `if limit:` treats
`limit=0` like `None` (no slicing); `filtered[-limit:]` keeps the last
`limit` entries. -/
def getHistory (s : GenState) (limit : Option Nat) (templateFilter : Option String)
    (startDate : Option Nat) (successOnly : Bool) : List ResultRecord :=
  let f := s.history
  let f := match templateFilter with
    | some tf => f.filter (fun h => h.templateUsed == tf)
    | none => f
  let f := match startDate with
    | some d => f.filter (fun h => d ≤ h.timestamp)
    | none => f
  let f := if successOnly then f.filter (fun h => h.success) else f
  match limit with
  | some n => if n ≠ 0 then f.drop (f.length - n) else f
  | none => f

/-- Round half to even on ℤ-scaled rationals: the behaviour of Python's
`round` on the exact value (Python rounds the binary float; every cost in
scope is an exact multiple of 10⁻⁶, where the two agree). -/
def roundHalfEven (q : ℚ) : ℤ :=
  let f := ⌊q⌋
  let r := q - f
  if r < 1/2 then f
  else if 1/2 < r then f + 1
  else if Even f then f else f + 1

/-- Python `round(q, n)` on the exact value. -/
def pyRoundTo (n : Nat) (q : ℚ) : ℚ :=
  (roundHalfEven (q * 10 ^ n) : ℚ) / 10 ^ n

/-- Increment a per-template counter (`templates_used`). -/
def bumpCount (m : List (String × Nat)) (k : String) : List (String × Nat) :=
  assocSet m k ((assocFind m k).getD 0 + 1)

/-- Add to a per-template cost accumulator (`cost_by_template`). -/
def bumpCost (m : List (String × ℚ)) (k : String) (c : ℚ) : List (String × ℚ) :=
  assocSet m k ((assocFind m k).getD 0 + c)

/-- The dictionary returned by `ContentGenerator.get_statistics` (session id
and start are constants of the instance and omitted; the empty-history branch
of the source carries no `history_size`/`cache_size` keys — the model reports
`0` and the cache length there). -/
structure StatsRecord where
  totalGenerations : Nat
  totalCost : ℚ
  totalTokens : Nat
  templatesUsed : List (String × Nat)
  successRate : ℚ
  cacheHitRate : ℚ
  averageGenerationTime : ℚ
  costByTemplate : List (String × ℚ)
  historySize : Nat
  cacheSize : Nat

/-- `ContentGenerator.get_statistics`. -/
def getStatistics (s : GenState) : StatsRecord :=
  if s.history.isEmpty then
    { totalGenerations := 0, totalCost := 0, totalTokens := 0, templatesUsed := [],
      successRate := 0, cacheHitRate := lruHitRate s.lruHits s.lruMisses,
      averageGenerationTime := 0, costByTemplate := [], historySize := 0,
      cacheSize := s.cache.length }
  else
    let history := s.history
    let totalGenerations := history.length
    let successful := history.filter (fun h => h.success)
    let totalCost := history.foldl (fun acc h => acc + h.cost) 0
    let totalTokens := history.foldl (fun acc h => acc + h.tokensUsed.total) 0
    let templatesUsed := history.foldl (fun m h => bumpCount m h.templateUsed) []
    let costByTemplate := history.foldl (fun m h => bumpCost m h.templateUsed h.cost) []
    let genTimes := (history.filter (fun h => h.generationTime > 0)).map
      (fun h => h.generationTime)
    let avgGenTime :=
      if genTimes.isEmpty then 0 else genTimes.foldl (· + ·) 0 / (genTimes.length : ℚ)
    { totalGenerations := totalGenerations,
      totalCost := pyRoundTo 6 totalCost,
      totalTokens := totalTokens,
      templatesUsed := templatesUsed,
      successRate :=
        if totalGenerations > 0 then
          (successful.length : ℚ) / (totalGenerations : ℚ) * 100
        else 0,
      cacheHitRate := lruHitRate s.lruHits s.lruMisses,
      averageGenerationTime := pyRoundTo 3 avgGenTime,
      costByTemplate := costByTemplate.map (fun p => (p.1, pyRoundTo 6 p.2)),
      historySize := history.length,
      cacheSize := s.cache.length }

/-! ## General helper lemmas -/

theorem append_ne_empty_left (a b : String) (h : a ≠ "") : a ++ b ≠ "" := by
  intro hc
  apply h
  have hd := congrArg String.data hc
  rw [String.data_append] at hd
  have : a.data = [] := by
    cases hl : a.data with
    | nil => rfl
    | cons c cs => rw [hl] at hd; simp at hd
  cases a with
  | mk data => simp_all

theorem drop_keep_append {α : Type} (l m : List α) (n : Nat) :
    (l.drop (l.length - n) ++ m).drop ((l.drop (l.length - n) ++ m).length - n)
      = (l ++ m).drop ((l ++ m).length - n) := by
  rw [List.drop_append_eq_append_drop, List.drop_append_eq_append_drop, List.drop_drop]
  simp only [List.length_append, List.length_drop]
  congr 2 <;> omega

theorem addToHistory_length_le (h : List ResultRecord) (r : ResultRecord) :
    (addToHistory h r).length ≤ MAX_HISTORY_SIZE := by
  simp only [addToHistory, List.length_drop, List.length_append]
  omega

theorem foldl_addToHistory_eq (xs : List ResultRecord) :
    ∀ h0 : List ResultRecord, h0.length ≤ MAX_HISTORY_SIZE →
      xs.foldl addToHistory h0 = (h0 ++ xs).drop ((h0 ++ xs).length - MAX_HISTORY_SIZE) := by
  induction xs with
  | nil =>
    intro h0 h
    have hz : h0.length - MAX_HISTORY_SIZE = 0 := by omega
    simp [hz]
  | cons x xs ih =>
    intro h0 h
    rw [List.foldl_cons, ih (addToHistory h0 x) (addToHistory_length_le h0 x)]
    have hax : addToHistory h0 x = (h0 ++ [x]).drop ((h0 ++ [x]).length - MAX_HISTORY_SIZE) := rfl
    rw [hax, drop_keep_append, List.append_assoc]
    rfl

/-- Claim C7 (confirmed).  After any sequence of `generate` calls — each of
which appends exactly one record through `_add_to_history` — the history
never holds more than `MAX_HISTORY_SIZE = 1000` entries, and the retained
entries are exactly the most recent ones in call order (oldest trimmed
first); this holds after every single append.  `get_history` with no filters
and no limit returns the history as is. -/
theorem history_bound_and_recency (h0 xs : List ResultRecord)
    (hlen : h0.length ≤ MAX_HISTORY_SIZE) :
    (xs.foldl addToHistory h0).length ≤ MAX_HISTORY_SIZE ∧
    xs.foldl addToHistory h0 = (h0 ++ xs).drop ((h0 ++ xs).length - MAX_HISTORY_SIZE) ∧
    ∀ s : GenState, getHistory s none none none false = s.history := by
  refine ⟨?_, foldl_addToHistory_eq xs h0 hlen, ?_⟩
  · rw [foldl_addToHistory_eq xs h0 hlen]
    simp only [List.length_drop, List.length_append]
    omega
  · intro s
    simp [getHistory]

/-- A concrete record for witnesses. -/
def sampleRecord : ResultRecord :=
  { success := true, content := "c", templateUsed := "t", vars := [], timestamp := 0,
    requestId := 0, model := "m", tokensUsed := {}, cost := 0, cached := false,
    generationTime := 0, error := "" }

/-- A concrete failed record for witnesses. -/
def sampleFailedRecord : ResultRecord :=
  { sampleRecord with success := false, content := "", cost := 0, error := "boom" }

/-- Witness for C7 at a concrete history. -/
theorem history_bound_and_recency_witness :
    ([sampleRecord, sampleRecord].foldl addToHistory []).length ≤ MAX_HISTORY_SIZE ∧
    [sampleRecord, sampleRecord].foldl addToHistory [] =
      (([] : List ResultRecord) ++ [sampleRecord, sampleRecord]).drop
        ((([] : List ResultRecord) ++ [sampleRecord, sampleRecord]).length - MAX_HISTORY_SIZE) ∧
    ∀ s : GenState, getHistory s none none none false = s.history :=
  history_bound_and_recency [] [sampleRecord, sampleRecord] (by simp)

/-- Claim C9 (confirmed).  `OpenAIManager.generate_content` computes its
effective parameters with `max_tokens or self.max_tokens` and
`temperature or self.temperature`; Python `or` treats `0`/`0.0` as absent,
so a zero argument is replaced by the manager's configured default, and the
effective temperature can only be `0.0` when the configured default itself
is `0.0` — a caller cannot request sampling temperature `0.0`. -/
theorem zero_params_replaced_by_defaults (mgrMax : Int) (mgrTemp : ℚ) :
    effectiveGenParams mgrMax mgrTemp (some 0) (some 0) = (mgrMax, mgrTemp) ∧
    (∀ mt t, (effectiveGenParams mgrMax mgrTemp mt t).2 = 0 → mgrTemp = 0) ∧
    (∀ mt t, (effectiveGenParams mgrMax mgrTemp mt t).1 = 0 → mgrMax = 0) := by
  refine ⟨by simp [effectiveGenParams, pyOrInt, pyOrRat], ?_, ?_⟩
  · intro mt t h
    simp only [effectiveGenParams, pyOrRat] at h
    match t with
    | none => exact h
    | some v =>
      simp only at h
      split at h
      · exact h
      · exact absurd h (by assumption)
  · intro mt t h
    simp only [effectiveGenParams, pyOrInt] at h
    match mt with
    | none => exact h
    | some v =>
      simp only at h
      split at h
      · exact h
      · exact absurd h (by assumption)

/-- Witness for C9 at concrete parameters. -/
theorem zero_params_replaced_by_defaults_witness :
    effectiveGenParams 2000 (7/10) (some 0) (some 0) = (2000, 7/10) ∧ (0 : ℚ) = 0 :=
  ⟨(zero_params_replaced_by_defaults 2000 (7/10)).1,
   (zero_params_replaced_by_defaults 2000 0).2.1 (some 0) (some 0) (by decide)⟩

/-! ## C8 — statistics total cost -/

theorem roundHalfEven_intCast (z : ℤ) : roundHalfEven (z : ℚ) = z := by
  simp only [roundHalfEven, Int.floor_intCast, sub_self]
  norm_num

theorem pyRoundTo_six_of_micro (q : ℚ) (h : ∃ z : ℤ, q * 1000000 = z) :
    pyRoundTo 6 q = q := by
  obtain ⟨z, hz⟩ := h
  have h6 : ((10 : ℚ) ^ (6 : ℕ)) = 1000000 := by norm_num
  rw [pyRoundTo, h6, hz, roundHalfEven_intCast, ← hz]
  field_simp

theorem sum_costs_filter_success (l : List ResultRecord)
    (hfail : ∀ r ∈ l, r.success = false → r.cost = 0) :
    (l.map (fun r => r.cost)).sum = ((l.filter (fun r => r.success)).map (fun r => r.cost)).sum := by
  induction l with
  | nil => rfl
  | cons r rest ih =>
    have hr := hfail r (by simp)
    have ih' := ih (fun x hx hs => hfail x (by simp [hx]) hs)
    by_cases hs : r.success
    · simp [List.filter_cons, hs, ih']
    · have hc : r.cost = 0 := hr (by simpa using hs)
      simp [List.filter_cons, hs, hc, ih']

theorem sum_costs_micro (l : List ResultRecord)
    (hmicro : ∀ r ∈ l, ∃ z : ℤ, r.cost * 1000000 = z) :
    ∃ z : ℤ, (l.map (fun r => r.cost)).sum * 1000000 = z := by
  induction l with
  | nil => exact ⟨0, by simp⟩
  | cons r rest ih =>
    obtain ⟨z1, hz1⟩ := hmicro r (by simp)
    obtain ⟨z2, hz2⟩ := ih (fun x hx => hmicro x (by simp [hx]))
    exact ⟨z1 + z2, by push_cast; rw [List.map_cons, List.sum_cons, add_mul, hz1, hz2]⟩

/-- Claim C8 (confirmed).  `get_statistics` reports
`total_cost = round(sum(cost of every history entry), 6)`; since every failed
entry carries cost `0` (the orchestrator only ever records non-zero cost on
success) and every recorded cost is an exact multiple of 10⁻⁶ (the client
rounds costs to 6 decimals), this equals the sum of the cost fields of the
successful entries currently in history, exactly to 6-decimal precision. -/
theorem statistics_total_cost (s : GenState)
    (hfail : ∀ r ∈ s.history, r.success = false → r.cost = 0)
    (hmicro : ∀ r ∈ s.history, ∃ z : ℤ, r.cost * 1000000 = z) :
    (getStatistics s).totalCost =
      ((s.history.filter (fun r => r.success)).map (fun r => r.cost)).sum := by
  by_cases hemp : s.history.isEmpty
  · have : s.history = [] := by simpa [List.isEmpty_iff] using hemp
    simp [getStatistics, hemp, this]
  · have hfold : s.history.foldl (fun acc h => acc + h.cost) 0
        = (s.history.map (fun r => r.cost)).sum := by
      rw [List.sum_eq_foldl, List.foldl_map]
    have hsum := sum_costs_filter_success s.history hfail
    have hm : ∃ z : ℤ, (s.history.map (fun r => r.cost)).sum * 1000000 = z :=
      sum_costs_micro s.history hmicro
    simp only [getStatistics, hemp, Bool.false_eq_true, if_false]
    rw [hfold, pyRoundTo_six_of_micro _ hm, hsum]

/-- Witness for C8 at a concrete two-entry history. -/
theorem statistics_total_cost_witness :
    (getStatistics { history := [{ sampleRecord with cost := 1/1000 }, sampleFailedRecord] }).totalCost =
      (([{ sampleRecord with cost := 1/1000 }, sampleFailedRecord].filter
          (fun r => r.success)).map (fun r => r.cost)).sum := by
  apply statistics_total_cost
  · intro r hr hs
    simp only [List.mem_cons, List.not_mem_nil, or_false] at hr
    rcases hr with rfl | rfl
    · simp [sampleRecord] at hs
    · rfl
  · intro r hr
    simp only [List.mem_cons, List.not_mem_nil, or_false] at hr
    rcases hr with rfl | rfl
    · exact ⟨1000, by norm_num⟩
    · exact ⟨0, by simp [sampleFailedRecord, sampleRecord]⟩

/-! ## C4 — template registration validation -/

/-- A template whose name violates the `[A-Za-z0-9_]+` pattern but satisfies
every check `_validate_template` actually performs. -/
def badNameTemplate : PromptTemplate :=
  { name := "bad name!", category := "test", template := "Hello",
    systemInstructions := "S", temperatureRecommendation := 1 }

/-- A template with an empty body (a violation the code does check). -/
def emptyBodyTemplate : PromptTemplate :=
  { name := "t", category := "c", template := "", systemInstructions := "s" }

/-- Claim C4 (counterexample).  `_validate_template` performs no name-pattern
check: a template whose name contains characters outside `[A-Za-z0-9_]`
(here a space and a `!`) constructs without error and is inserted into the
store, contradicting the claim that such a violation raises a
template-validation error with nothing inserted. -/
theorem register_bad_name_counterexample :
    templateNameOk badNameTemplate.name = false ∧
    templateValidationError badNameTemplate = none ∧
    (createAndRegister ⟨[], []⟩ badNameTemplate).1 = .ok badNameTemplate ∧
    getTemplate (createAndRegister ⟨[], []⟩ badNameTemplate).2 badNameTemplate.name
      = some badNameTemplate :=
  ⟨rfl, rfl, rfl, rfl⟩

/-- Claim C4 (amended).  Registration (construction + `register_template`)
validates exactly: non-empty name of at most 100 characters, non-empty body
of at most 10,000 characters, temperature in `[0, 2]`, and `max_tokens ≥ 1`;
any violation of these raises a `TemplateValidationError` and nothing is
inserted into the store.  The name-charset pattern `[A-Za-z0-9_]+` is *not*
checked at registration (it is only enforced by the orchestrator's input
validator at generation time). -/
theorem register_validation_amended (t : PromptTemplate) :
    (templateValidationError t = none ↔
      (t.name ≠ "" ∧ t.name.length ≤ MAX_NAME_LENGTH ∧ t.template ≠ "" ∧
       t.template.length ≤ MAX_TEMPLATE_LENGTH ∧
       0 ≤ t.temperatureRecommendation ∧ t.temperatureRecommendation ≤ 2 ∧
       1 ≤ t.maxTokensRecommendation)) ∧
    (∀ (e : PromptEngine) (msg : String), templateValidationError t = some msg →
        createAndRegister e t = (.error msg, e)) := by
  constructor
  · unfold templateValidationError
    split_ifs with h1 h2 h3 h4 h5 h6
    · simp only [false_iff]; intro hc; exact hc.1 h1
    · simp only [false_iff]; intro hc; omega
    · simp only [false_iff]; intro hc; exact hc.2.2.1 h3
    · simp only [false_iff]; intro hc; omega
    · simp only [false_iff]; intro hc; omega
    · exact ⟨fun _ => ⟨h1, by omega, h3, by omega, h5.1, h5.2, by omega⟩, fun _ => rfl⟩
    · simp only [false_iff]; intro hc
      exact h5 ⟨hc.2.2.2.2.1, hc.2.2.2.2.2.1⟩
  · intro e msg h
    unfold createAndRegister mkPromptTemplate
    rw [h]

/-- Witness for C4's amended theorem: an empty body is rejected and the store
is left untouched. -/
theorem register_validation_amended_witness :
    templateValidationError emptyBodyTemplate = some "Template must be a non-empty string" ∧
    createAndRegister ⟨[], []⟩ emptyBodyTemplate =
      (.error "Template must be a non-empty string", ⟨[], []⟩) :=
  ⟨rfl, (register_validation_amended emptyBodyTemplate).2 ⟨[], []⟩ _ rfl⟩

/-! ## C5 — brace escaping during rendering -/

theorem undoubleOpenL_cons_ne (c : Char) (cs : List Char) (h : ¬ c = '{') :
    undoubleOpenL (c :: cs) = c :: undoubleOpenL cs := by
  cases cs with
  | nil => rfl
  | cons c2 rest =>
    simp only [undoubleOpenL]
    rw [if_neg (fun hh => h hh.1)]

theorem undoubleCloseL_cons_ne (c : Char) (cs : List Char) (h : ¬ c = '}') :
    undoubleCloseL (c :: cs) = c :: undoubleCloseL cs := by
  cases cs with
  | nil => rfl
  | cons c2 rest =>
    simp only [undoubleCloseL]
    rw [if_neg (fun hh => h hh.1)]

theorem dOpenL_cons (c : Char) (cs : List Char) :
    dOpenL (c :: cs) = if c = '{' then '{' :: '{' :: dOpenL cs else c :: dOpenL cs := rfl

theorem dCloseL_cons (c : Char) (cs : List Char) :
    dCloseL (c :: cs) = if c = '}' then '}' :: '}' :: dCloseL cs else c :: dCloseL cs := rfl

theorem undoubleCloseL_dCloseL (cs : List Char) : undoubleCloseL (dCloseL cs) = cs := by
  induction cs with
  | nil => rfl
  | cons c rest ih =>
    by_cases hc : c = '}'
    · subst hc
      rw [dCloseL_cons, if_pos rfl]
      simp only [undoubleCloseL, and_self, if_true]
      rw [ih]
    · rw [dCloseL_cons, if_neg hc, undoubleCloseL_cons_ne c _ hc, ih]

theorem undoubleOpenL_dCloseL_dOpenL (cs : List Char) :
    undoubleOpenL (dCloseL (dOpenL cs)) = dCloseL cs := by
  induction cs with
  | nil => rfl
  | cons c rest ih =>
    by_cases hc : c = '{'
    · subst hc
      rw [dOpenL_cons, if_pos rfl, dCloseL_cons, if_neg (by decide),
          dCloseL_cons, if_neg (by decide)]
      simp only [undoubleOpenL, and_self, if_true]
      rw [ih, dCloseL_cons, if_neg (by decide)]
    · by_cases hc2 : c = '}'
      · subst hc2
        rw [dOpenL_cons, if_neg hc, dCloseL_cons, if_pos rfl]
        rw [undoubleOpenL_cons_ne _ _ (by decide), undoubleOpenL_cons_ne _ _ (by decide), ih]
        rw [dCloseL_cons, if_pos rfl]
      · rw [dOpenL_cons, if_neg hc, dCloseL_cons, if_neg hc2,
            undoubleOpenL_cons_ne c _ hc, ih, dCloseL_cons, if_neg hc2]

theorem unescape_doubleBraces (s : String) : unescapeBraces (doubleBraces s) = s := by
  unfold unescapeBraces doubleBraces
  show String.mk (undoubleCloseL (undoubleOpenL (dCloseL (dOpenL s.data)))) = s
  rw [undoubleOpenL_dCloseL_dOpenL, undoubleCloseL_dCloseL]

/-- The template of §8's concrete greet scenario, used as a rendering
counterexample. -/
def greetTemplate : PromptTemplate :=
  { name := "greet", category := "general", template := "Hello \x7bname\x7d",
    systemInstructions := "Sys", requiredVariables := ["name"] }

/-- Claim C5 (counterexample).  Rendering with `sanitize=True` does *not* leave
the braces of a caller value doubled in the rendered prompt: for the value
`"a{b"` (which contains a brace and passes the deny-list), the rendered
prompt is `"Hello a{b"` — the value appears verbatim, with no doubled brace
anywhere, because `PromptTemplate.generate` un-escapes the sanitizer's
doubling just before substitution. -/
theorem sanitize_braces_counterexample :
    templateGenerate greetTemplate [("name", .pstr "a\x7bb")] true false = .ok "Hello a\x7bb" ∧
    containsSub "a\x7bb" "\x7b" = true ∧
    containsSub "Hello a\x7bb" "\x7b\x7b" = false := by
  refine ⟨by decide, by decide, by decide⟩

/-- Claim C5 (amended).  `_sanitize_value` does escape every accepted value by
doubling its curly braces, but `PromptTemplate.generate` applies the inverse
un-escaping to every merged value just before substitution, so the value
substituted into the rendered prompt is the original string with its braces
exactly as supplied (not doubled). -/
theorem sanitize_doubles_render_restores (v : PyVal) (w : String)
    (h : sanitizeValue v = .ok w) :
    w = doubleBraces (strOfValue v) ∧ unescapeBraces w = strOfValue v := by
  simp only [sanitizeValue] at h
  split_ifs at h with h1 h2
  rw [Except.ok.injEq] at h
  subst h
  exact ⟨rfl, unescape_doubleBraces _⟩

/-- Witness for C5's amended theorem at the value `"a{b"`. -/
theorem sanitize_doubles_render_restores_witness :
    sanitizeValue (.pstr "a\x7bb") = .ok "a\x7b\x7bb" ∧
    unescapeBraces "a\x7b\x7bb" = "a\x7bb" :=
  ⟨by decide, (sanitize_doubles_render_restores (.pstr "a\x7bb") "a\x7b\x7bb" (by decide)).2⟩

/-! ## C10 — the `tone` default -/

theorem str_data_inj {s t : String} (h : s.data = t.data) : s = t :=
  congrArg String.mk h

theorem assocFind_set_ne {α : Type} (m : List (String × α)) (k' k : String) (v : α)
    (h : k' ≠ k) : assocFind (assocSet m k' v) k = assocFind m k := by
  induction m with
  | nil =>
    simp only [assocSet, assocFind]
    rw [if_neg (by simpa using h)]
  | cons p rest ih =>
    obtain ⟨pk, pv⟩ := p
    simp only [assocSet]
    by_cases hp : pk == k'
    · simp only [hp, if_true]
      have hpk : pk ≠ k := fun hc => h (by
        have := (beq_iff_eq.mp hp); rw [← this, hc])
      simp only [assocFind]
      rw [if_neg (by simpa using hpk), if_neg (by simpa using hpk)]
    · simp only [hp, if_false]
      simp only [assocFind]
      by_cases hpk : pk == k
      · simp [hpk]
      · simp only [hpk, if_false]
        exact ih

theorem assocFind_append_of_not_has {α : Type} (l : List (String × α)) (k : String)
    (v : α) (h : assocHas l k = false) : assocFind (l ++ [(k, v)]) k = some v := by
  induction l with
  | nil => simp [assocFind]
  | cons p rest ih =>
    simp only [assocHas, List.any_cons, Bool.or_eq_false_iff] at h
    simp only [List.cons_append, assocFind]
    rw [if_neg (by simp [h.1])]
    exact ih (by simp [assocHas, h.2])

theorem overrideVars_not_has (vars : List (String × PyVal)) :
    ∀ (m res : List (String × String)) (sanitize : Bool) (k : String),
      overrideVars m vars sanitize = .ok res → assocHas vars k = false →
      assocFind res k = assocFind m k := by
  induction vars with
  | nil =>
    intro m res sanitize k h _
    cases h
    rfl
  | cons p rest ih =>
    intro m res sanitize k h hk
    obtain ⟨pk, pv⟩ := p
    simp only [assocHas, List.any_cons, Bool.or_eq_false_iff] at hk
    have hpk : pk ≠ k := by
      intro hc; rw [hc] at hk; simp at hk
    have hrest : assocHas rest k = false := by simp [assocHas, hk.2]
    simp only [overrideVars] at h
    by_cases hs : sanitize
    · rw [if_pos hs] at h
      cases hsv : sanitizeValue pv with
      | error e => rw [hsv] at h; cases h
      | ok w =>
        rw [hsv] at h
        rw [ih _ _ _ _ h hrest, assocFind_set_ne _ _ _ _ hpk]
    · rw [if_neg hs] at h
      rw [ih _ _ _ _ h hrest, assocFind_set_ne _ _ _ _ hpk]

/-- If neither the optional defaults nor the caller provide `tone`, the
merged variable map binds `tone` to the template's `default_tone`. -/
theorem buildMergedVars_tone (t : PromptTemplate) (vars : List (String × PyVal))
    (h1 : assocHas t.optionalVariables "tone" = false)
    (h2 : assocHas vars "tone" = false)
    (m : List (String × String)) (hm : buildMergedVars t vars true = .ok m) :
    assocFind m "tone" = some t.defaultTone := by
  simp only [buildMergedVars, h1, h2, Bool.not_false, Bool.and_self, if_true] at hm
  rw [overrideVars_not_has vars _ _ _ _ hm h2]
  exact assocFind_append_of_not_has _ _ _ h1

theorem exceptMap_eq_error {ε α β : Type} (f : α → β) (x : Except ε α) (e : ε) :
    x.map f = .error e ↔ x = .error e := by
  cases x <;> simp [Except.map]

theorem assocFind_map_value {α β : Type} (m : List (String × α)) (f : α → β) (k : String) :
    assocFind (m.map (fun p => (p.1, f p.2))) k = (assocFind m k).map f := by
  induction m with
  | nil => rfl
  | cons p rest ih =>
    simp only [List.map_cons, assocFind]
    by_cases hp : p.1 == k
    · simp [hp]
    · simp only [hp, if_false]
      exact ih

/-- A `KeyError` out of the format scanner means the offending field is not
bound in the substitution map. -/
theorem pyFormatGo_keyError (m : List (String × String)) :
    ∀ (fuel : Nat) (cs : List Char) (k : String),
      pyFormatGo m fuel cs = .error (.keyError k) → assocFind m k = none := by
  intro fuel
  induction fuel with
  | zero =>
    intro cs k h
    simp [pyFormatGo] at h
  | succ fuel ih =>
    intro cs k h
    cases cs with
    | nil => simp [pyFormatGo] at h
    | cons c rest =>
      simp only [pyFormatGo] at h
      split_ifs at h with hb hc
      · -- c = '{'
        split at h
        · rw [exceptMap_eq_error] at h
          exact ih _ _ h
        · split at h
          · split at h
            · rw [exceptMap_eq_error] at h
              exact ih _ _ h
            · rw [Except.error.injEq, FmtErr.keyError.injEq] at h
              subst h
              assumption
          · cases h
      · -- c = '}'
        split at h
        · rw [exceptMap_eq_error] at h
          exact ih _ _ h
        · cases h
      · rw [exceptMap_eq_error] at h
        exact ih _ _ h

/-- The `VariableValidationError` message produced for an unresolved `tone`
placeholder. -/
def toneKeyErrorMsg : String :=
  "Template variable 'tone' not provided and has no default"

theorem missing_msg_ne_tone_msg (x y : String) :
    ("Missing required variables for template '" ++ x ++ "': " ++ y) ≠ toneKeyErrorMsg := by
  intro h
  have hh := congrArg (fun s : String => s.data.head?) h
  simp only [String.data_append] at hh
  have h1 : ("Missing required variables for template '".data
      ++ x.data ++ "': ".data ++ y.data).head? = some 'M' := rfl
  have h2 : toneKeyErrorMsg.data.head? = some 'T' := rfl
  rw [h1, h2] at hh
  cases hh

theorem template_variable_msg_inj (k : String)
    (h : ("Template variable '" ++ k ++ "' not provided and has no default")
          = toneKeyErrorMsg) : k = "tone" := by
  have hd := congrArg String.data h
  simp only [String.data_append] at hd
  have : toneKeyErrorMsg.data
      = "Template variable '".data ++ "tone".data ++ "' not provided and has no default".data := rfl
  rw [this] at hd
  rw [List.append_assoc, List.append_assoc] at hd
  have h1 := List.append_cancel_left hd
  have h2 := List.append_cancel_right h1
  exact str_data_inj h2

/-- Claim C10 (confirmed).  If neither the caller's variables nor the template's
optional defaults contain the key `tone`, `PromptTemplate.generate` injects
`default_tone` as the value of `tone` before substitution, so a `{tone}`
placeholder alone never triggers the unresolved-placeholder
`VariableValidationError`. -/
theorem tone_default_prevents_key_error (t : PromptTemplate)
    (vars : List (String × PyVal)) (iSys : Bool)
    (h1 : assocHas t.optionalVariables "tone" = false)
    (h2 : assocHas vars "tone" = false) :
    (∀ m, buildMergedVars t vars true = .ok m → assocFind m "tone" = some t.defaultTone) ∧
    templateGenerate t vars true iSys ≠ .error (.varValidation toneKeyErrorMsg) := by
  refine ⟨fun m hm => buildMergedVars_tone t vars h1 h2 m hm, ?_⟩
  intro hcontra
  simp only [templateGenerate] at hcontra
  split at hcontra
  · rw [Except.error.injEq, RenderErr.varValidation.injEq] at hcontra
    exact missing_msg_ne_tone_msg _ _ hcontra
  · split at hcontra
    · cases hcontra
    · next merged hmerged =>
      split at hcontra
      · next k hk =>
        rw [Except.error.injEq, RenderErr.varValidation.injEq] at hcontra
        have hk' : k = "tone" := template_variable_msg_inj k hcontra
        subst hk'
        have hfound := buildMergedVars_tone t vars h1 h2 merged hmerged
        have hnone := pyFormatGo_keyError _ _ _ _ hk
        rw [assocFind_map_value, hfound] at hnone
        cases hnone
      · cases hcontra
      · cases hcontra

/-- A template whose only placeholder is `{tone}`, for the C10 witness. -/
def toneOnlyTemplate : PromptTemplate :=
  { name := "tone_only", category := "general", template := "Be \x7btone\x7d.",
    systemInstructions := "S" }

/-- Witness for C10: with no `tone` anywhere, the merged map carries the
default tone and rendering succeeds. -/
theorem tone_default_prevents_key_error_witness :
    assocFind [("tone", "professional")] "tone" = some toneOnlyTemplate.defaultTone ∧
    templateGenerate toneOnlyTemplate [] true false = .ok "Be professional." :=
  ⟨(tone_default_prevents_key_error toneOnlyTemplate [] false rfl rfl).1
      [("tone", "professional")] (by decide),
   by decide⟩

/-! ## C6 — retry with exponential backoff -/

theorem isTransient_classify (r : RawErr) :
    isTransient (classifyRaw r) = true ↔ (r = .rateLimit ∨ r = .connection) := by
  cases r with
  | rateLimit => simp [classifyRaw, isTransient]
  | connection => simp [classifyRaw, isTransient]
  | auth => simp [classifyRaw, isTransient]
  | apiError m => simp [classifyRaw, isTransient]
  | otherExc m =>
    simp only [classifyRaw]
    split <;> simp [isTransient]

/-- Claim C6 (confirmed).  The remote call is retried only on the transient
classes (`RateLimitError`, `APIConnectionError`): at most 3 attempts with
sleeps of 2 s then 2·2 = 4 s (base 2 s, multiplied by the fixed factor 2
after each retried attempt, always the geometric prefix matching the number
of calls made).  An authentication failure is classified `APIKeyInvalidError`
and never retried — it surfaces after a single call, even following a
transient attempt.  Exhausting all 3 attempts on rate-limit raises
`RateLimitExceeded`, on connection failure `APIConnectionFailed`. -/
theorem retry_transient_only_with_backoff (α : Type) :
    (∀ rawCall : Nat → Except RawErr α,
       (makeApiCall rawCall).2.1 ≤ MAX_RETRY_ATTEMPTS ∧
       (makeApiCall rawCall).2.2 =
         [BASE_RETRY_DELAY, BASE_RETRY_DELAY * RETRY_BACKOFF_MULTIPLIER].take
           ((makeApiCall rawCall).2.1 - 1)) ∧
    (∀ rawCall : Nat → Except RawErr α, rawCall 0 = .error .auth →
       makeApiCall rawCall = (.error .apiKeyInvalid, 1, [])) ∧
    (∀ rawCall : Nat → Except RawErr α,
       rawCall 0 = .error .rateLimit → rawCall 1 = .error .auth →
       makeApiCall rawCall = (.error .apiKeyInvalid, 2, [BASE_RETRY_DELAY])) ∧
    (∀ rawCall : Nat → Except RawErr α, (∀ i, i < 3 → rawCall i = .error .rateLimit) →
       makeApiCall rawCall = (.error .rateLimitExceeded, 3, [2, 4])) ∧
    (∀ rawCall : Nat → Except RawErr α, (∀ i, i < 3 → rawCall i = .error .connection) →
       makeApiCall rawCall = (.error .apiConnectionFailed, 3, [2, 4])) := by
  refine ⟨?_, ?_, ?_, ?_, ?_⟩
  · intro rawCall
    simp only [makeApiCall, retryWithBackoffCall, MAX_RETRY_ATTEMPTS, BASE_RETRY_DELAY,
      RETRY_BACKOFF_MULTIPLIER]
    cases h0 : rawCall 0 with
    | ok a => simp [retryGo, h0, Except.mapError]
    | error e0 =>
      by_cases ht0 : isTransient (classifyRaw e0) = true
      · cases h1 : rawCall 1 with
        | ok a => simp [retryGo, h0, h1, Except.mapError, ht0]
        | error e1 =>
          by_cases ht1 : isTransient (classifyRaw e1) = true
          · cases h2 : rawCall 2 with
            | ok a =>
              simp [retryGo, h0, h1, h2, Except.mapError, ht0, ht1]
            | error e2 =>
              by_cases ht2 : isTransient (classifyRaw e2) = true
              · simp [retryGo, h0, h1, h2, Except.mapError, ht0, ht1, ht2]
              · simp [retryGo, h0, h1, h2, Except.mapError, ht0, ht1, ht2]
          · simp [retryGo, h0, h1, Except.mapError, ht0, ht1]
      · simp [retryGo, h0, Except.mapError, ht0]
  · intro rawCall h0
    simp [makeApiCall, retryWithBackoffCall, MAX_RETRY_ATTEMPTS, BASE_RETRY_DELAY,
      RETRY_BACKOFF_MULTIPLIER, retryGo, h0, Except.mapError, classifyRaw, isTransient]
  · intro rawCall h0 h1
    simp [makeApiCall, retryWithBackoffCall, MAX_RETRY_ATTEMPTS, BASE_RETRY_DELAY,
      RETRY_BACKOFF_MULTIPLIER, retryGo, h0, h1, Except.mapError, classifyRaw, isTransient]
  · intro rawCall hall
    have h0 := hall 0 (by norm_num)
    have h1 := hall 1 (by norm_num)
    have h2 := hall 2 (by norm_num)
    simp [makeApiCall, retryWithBackoffCall, MAX_RETRY_ATTEMPTS, BASE_RETRY_DELAY,
      RETRY_BACKOFF_MULTIPLIER, retryGo, h0, h1, h2, Except.mapError, classifyRaw,
      isTransient, exhaustMap]
    norm_num
  · intro rawCall hall
    have h0 := hall 0 (by norm_num)
    have h1 := hall 1 (by norm_num)
    have h2 := hall 2 (by norm_num)
    simp [makeApiCall, retryWithBackoffCall, MAX_RETRY_ATTEMPTS, BASE_RETRY_DELAY,
      RETRY_BACKOFF_MULTIPLIER, retryGo, h0, h1, h2, Except.mapError, classifyRaw,
      isTransient, exhaustMap]
    norm_num

/-- Witness for C6 at concrete oracles. -/
theorem retry_transient_only_with_backoff_witness :
    makeApiCall (fun _ => (.error .rateLimit : Except RawErr Unit))
      = (.error .rateLimitExceeded, 3, [2, 4]) ∧
    makeApiCall (fun _ => (.error .connection : Except RawErr Unit))
      = (.error .apiConnectionFailed, 3, [2, 4]) ∧
    makeApiCall (fun _ => (.error .auth : Except RawErr Unit))
      = (.error .apiKeyInvalid, 1, []) :=
  ⟨(retry_transient_only_with_backoff Unit).2.2.2.1 _ (fun _ _ => rfl),
   (retry_transient_only_with_backoff Unit).2.2.2.2 _ (fun _ _ => rfl),
   (retry_transient_only_with_backoff Unit).2.1 _ rfl⟩

/-! ## C3 — missing-variable rejection -/

set_option maxRecDepth 40000

/-- Claim C3 (confirmed).  With the built-in `product_description` template
(required variables `product_name`, `features`, `audience`),
`generate("product_description", {"product_name": "X"})` computes the missing
list `["features", "audience"]` — in that order — and returns `success=False`
with the error message listing exactly those keys, for any remote client,
output sanitiser, cache/retry flags, time, and prior state. -/
theorem missing_variables_listed_in_order (oracle : Nat → ApiOutcome)
    (sanOut : String → String) (present useCache retryOnFailure : Bool)
    (ov : ApiOverrides) (now : Nat) (s : GenState) :
    (validateVariables productDescriptionTemplate [("product_name", .pstr "X")]).2
      = ["features", "audience"] ∧
    (generate ⟨builtinEngine, oracle, sanOut, present⟩ "product_description"
        [("product_name", .pstr "X")] useCache retryOnFailure ov now s).1.success = false ∧
    (generate ⟨builtinEngine, oracle, sanOut, present⟩ "product_description"
        [("product_name", .pstr "X")] useCache retryOnFailure ov now s).1.error =
      "Variable validation failed: Missing required variables for template "
        ++ "'product_description': ['features', 'audience']" := by
  refine ⟨by decide, rfl, rfl⟩

/-! ## C2 — failures are tagged, with non-empty error and empty content -/

theorem callApiLoop_some_success (oracle : Nat → ApiOutcome) :
    ∀ (n : Nat) (lastErr : String) (calls : Nat) (r : ApiResult) (le : String) (c : Nat),
      callApiLoop oracle n lastErr calls = (some r, le, c) → r.success = true := by
  intro n
  induction n with
  | zero => intro lastErr calls r le c h; cases h
  | succ n ih =>
    intro lastErr calls r le c h
    simp only [callApiLoop] at h
    split at h
    · split at h
      · rename_i r' hr'
        obtain ⟨h1, _⟩ := Prod.mk.injEq .. ▸ h
        cases h
        assumption
      · exact ih _ _ _ _ _ h
    · exact ih _ _ _ _ _ h

theorem callApiWithRetry_failed_error (oracle : Nat → ApiOutcome)
    (retryOnFailure : Bool) (calls : Nat)
    (h : (callApiWithRetry oracle retryOnFailure calls).1.success = false) :
    (callApiWithRetry oracle retryOnFailure calls).1.error ≠ "" := by
  simp only [callApiWithRetry] at h ⊢
  split at h
  · next r le c heq =>
    have hs := callApiLoop_some_success oracle _ _ _ _ _ _ heq
    simp [hs] at h
  · next le c heq =>
    exact append_ne_empty_left _ _
      (append_ne_empty_left _ _ (append_ne_empty_left _ _ (by decide)))

theorem lruGet_found_mem (now : Nat) (key : String) (c : List CacheEntry)
    (hits misses : Nat) (d : ResultRecord)
    (h : (lruGet now key c hits misses).found = some d) :
    ∃ e ∈ c, e.data = d := by
  simp only [lruGet] at h
  split at h
  · cases h
  · next e he =>
    split at h
    · cases h
    · cases h
      exact ⟨e, List.mem_of_find?_eq_some he, rfl⟩

/-- Claim C2 (confirmed).  `generate` is a total function into tagged result
records (the embedding returns a record on every code path — the outer
`except Exception` of the source converts the remaining raisers into failed
records); whenever the returned record has `success = False`, its `error`
field is a non-empty string and its `content` field is empty.  The cache
hypothesis (every cached payload is a successful record) holds for every
reachable state, since only successful results are ever stored. -/
theorem generate_failure_nonempty_error (env : GenEnv) (tn : String)
    (vars : List (String × PyVal)) (u rof : Bool) (ov : ApiOverrides) (now : Nat)
    (s : GenState) (hinv : ∀ e ∈ s.cache, e.data.success = true) :
    (generate env tn vars u rof ov now s).1.success = false →
      (generate env tn vars u rof ov now s).1.error ≠ "" ∧
      (generate env tn vars u rof ov now s).1.content = "" := by
  intro hfail
  cases hv : validateInput tn vars with
  | some msg =>
    simp only [generate, hv, finishWith] at hfail ⊢
    exact ⟨append_ne_empty_left _ _ (by decide), trivial⟩
  | none =>
  cases ht : getTemplate env.engine tn with
  | none =>
    simp only [generate, hv, ht, finishWith] at hfail ⊢
    exact ⟨append_ne_empty_left _ _ (by decide), trivial⟩
  | some t =>
  cases hr : templateGenerate t vars true true with
  | error e =>
    cases e with
    | varValidation m =>
      simp only [generate, hv, ht, hr, finishWith] at hfail ⊢
      exact ⟨append_ne_empty_left _ _ (by decide), trivial⟩
    | sanitization m =>
      simp only [generate, hv, ht, hr, finishWith] at hfail ⊢
      exact ⟨append_ne_empty_left _ _ (by decide), trivial⟩
    | otherError m =>
      simp only [generate, hv, ht, hr, finishWith] at hfail ⊢
      exact ⟨append_ne_empty_left _ _ (by decide), trivial⟩
  | ok p =>
  by_cases hu : u = true
  · cases hg : (lruGet now (genCacheKey tn vars) s.cache s.lruHits s.lruMisses).found with
    | some d =>
      obtain ⟨e, hem, hed⟩ := lruGet_found_mem _ _ _ _ _ _ hg
      have hdsucc : d.success = true := hed ▸ hinv e hem
      simp only [generate, hv, ht, hr, hu, eq_self_iff_true, if_true, hg, finishWith,
        hdsucc] at hfail
      exact absurd hfail (by decide)
    | none =>
      cases hp : env.apiManagerPresent with
      | false =>
        simp [generate, hv, ht, hr, hu, hg, hp, finishWith] at hfail ⊢
      | true =>
        cases ha : (callApiWithRetry env.oracle rof s.apiCalls).1.success with
        | false =>
          simp [generate, hv, ht, hr, hu, hg, hp, ha, finishWith] at hfail ⊢
          exact fun hc => callApiWithRetry_failed_error env.oracle rof s.apiCalls ha hc
        | true =>
          simp [generate, hv, ht, hr, hu, hg, hp, ha, finishWith] at hfail
  · cases hp : env.apiManagerPresent with
    | false =>
      simp [generate, hv, ht, hr, hu, hp, finishWith] at hfail ⊢
    | true =>
      cases ha : (callApiWithRetry env.oracle rof s.apiCalls).1.success with
      | false =>
        simp [generate, hv, ht, hr, hu, hp, ha, finishWith] at hfail ⊢
        exact fun hc => callApiWithRetry_failed_error env.oracle rof s.apiCalls ha hc
      | true =>
        simp [generate, hv, ht, hr, hu, hp, ha, finishWith] at hfail

/-- Witness for C2: a concrete failing call (unknown template, empty state). -/
theorem generate_failure_nonempty_error_witness :
    (generate ⟨builtinEngine, fun _ => .exc "down", id, true⟩ "nope" [] true true
        {} 0 {}).1.success = false ∧
    (generate ⟨builtinEngine, fun _ => .exc "down", id, true⟩ "nope" [] true true
        {} 0 {}).1.error ≠ "" ∧
    (generate ⟨builtinEngine, fun _ => .exc "down", id, true⟩ "nope" [] true true
        {} 0 {}).1.content = "" := by
  have h := generate_failure_nonempty_error ⟨builtinEngine, fun _ => .exc "down", id, true⟩
    "nope" [] true true {} 0 {} (by intro e he; cases he) (by decide)
  exact ⟨by decide, h.1, h.2⟩

/-! ## C1 — cache hit on the second identical call -/

theorem mem_lruEvict {e : CacheEntry} {l : List CacheEntry} (h : e ∈ lruEvict l) :
    e ∈ l := by
  unfold lruEvict at h
  split at h
  · exact List.mem_of_mem_drop h
  · exact h

theorem lruSet_prefix_keys (key : String) (c : List CacheEntry) :
    ∀ e ∈ lruEvict (c.filter (fun e => e.key ≠ key)), e.key ≠ key := by
  intro e he
  exact of_decide_eq_true (List.mem_filter.mp (mem_lruEvict he)).2

theorem find?_key_append (X : List CacheEntry) (entry : CacheEntry)
    (hX : ∀ e ∈ X, e.key ≠ entry.key) :
    (X ++ [entry]).find? (fun e => e.key == entry.key) = some entry := by
  rw [List.find?_append]
  have h1 : X.find? (fun e => e.key == entry.key) = none :=
    List.find?_eq_none.mpr (fun x hx => by simp [hX x hx])
  rw [h1]
  simp [List.find?]

theorem lruGet_append_hit (now : Nat) (X : List CacheEntry) (entry : CacheEntry)
    (hits misses : Nat) (hX : ∀ e ∈ X, e.key ≠ entry.key)
    (hexp : ¬ now > entry.expiresAt) :
    (lruGet now entry.key (X ++ [entry]) hits misses).found = some entry.data := by
  simp only [lruGet, find?_key_append X entry hX]
  rw [if_neg hexp]

theorem callApiLoop_calls_mono (oracle : Nat → ApiOutcome) :
    ∀ (n : Nat) (le : String) (c : Nat), c ≤ (callApiLoop oracle n le c).2.2 := by
  intro n
  induction n with
  | zero => intro le c; exact le_refl c
  | succ n ih =>
    intro le c
    simp only [callApiLoop]
    split
    · split
      · exact Nat.le_succ c
      · exact le_trans (Nat.le_succ c) (ih _ _)
    · exact le_trans (Nat.le_succ c) (ih _ _)

theorem callApiLoop_calls_succ_ge (oracle : Nat → ApiOutcome) (n : Nat) (le : String)
    (c : Nat) : c + 1 ≤ (callApiLoop oracle (n + 1) le c).2.2 := by
  simp only [callApiLoop]
  split
  · split
    · exact le_refl _
    · exact callApiLoop_calls_mono oracle _ _ _
  · exact callApiLoop_calls_mono oracle _ _ _

theorem callApiWithRetry_calls (oracle : Nat → ApiOutcome) (rof : Bool) (c : Nat) :
    (callApiWithRetry oracle rof c).2
      = (callApiLoop oracle (if rof then DEFAULT_RETRY_ATTEMPTS + 1 else 1) "" c).2.2 := by
  simp only [callApiWithRetry]
  split
  · next r le cc heq => rw [heq]
  · next le cc heq => rw [heq]

theorem callApiWithRetry_calls_ge (oracle : Nat → ApiOutcome) (rof : Bool) (c : Nat) :
    c + 1 ≤ (callApiWithRetry oracle rof c).2 := by
  rw [callApiWithRetry_calls]
  cases rof with
  | true => exact callApiLoop_calls_succ_ge oracle _ _ _
  | false => exact callApiLoop_calls_succ_ge oracle 0 _ _

/-- Characterization of a fresh (non-cached) successful `generate` with
`use_cache=True`: validation, lookup and rendering succeeded, the API manager
was present, and the final cache ends with a fresh entry for the request's
key (expiring at `now + CACHE_TTL_SECONDS`) holding exactly the returned
record, with no earlier entry sharing that key. -/
theorem generate_fresh_success (env : GenEnv) (tn : String)
    (vars : List (String × PyVal)) (rof : Bool) (ov : ApiOverrides) (now : Nat)
    (s : GenState)
    (hs : (generate env tn vars true rof ov now s).1.success = true)
    (hc : (generate env tn vars true rof ov now s).1.cached = false) :
    validateInput tn vars = none ∧
    (∃ t, getTemplate env.engine tn = some t ∧
       ∃ p, templateGenerate t vars true true = .ok p) ∧
    env.apiManagerPresent = true ∧
    (∃ X, (generate env tn vars true rof ov now s).2.cache =
        X ++ [⟨genCacheKey tn vars, (generate env tn vars true rof ov now s).1,
               now + CACHE_TTL_SECONDS⟩] ∧
        ∀ e ∈ X, e.key ≠ genCacheKey tn vars) := by
  cases hv : validateInput tn vars with
  | some msg => simp [generate, hv, finishWith] at hs
  | none =>
  cases ht : getTemplate env.engine tn with
  | none => simp [generate, hv, ht, finishWith] at hs
  | some t =>
  cases hr : templateGenerate t vars true true with
  | error e => cases e <;> simp [generate, hv, ht, hr, finishWith] at hs
  | ok p =>
  cases hg : (lruGet now (genCacheKey tn vars) s.cache s.lruHits s.lruMisses).found with
  | some d => simp [generate, hv, ht, hr, hg, finishWith] at hc
  | none =>
  cases hp : env.apiManagerPresent with
  | false => simp [generate, hv, ht, hr, hg, hp, finishWith] at hs
  | true =>
  cases ha : (callApiWithRetry env.oracle rof s.apiCalls).1.success with
  | false => simp [generate, hv, ht, hr, hg, hp, ha, finishWith] at hs
  | true =>
    refine ⟨rfl, ⟨t, rfl, p, hr⟩, rfl, ?_⟩
    simp only [generate, hv, ht, hr, hg, hp, ha, finishWith, eq_self_iff_true, if_true,
      Bool.not_true, Bool.false_eq_true, if_false]
    refine ⟨lruEvict (((lruGet now (genCacheKey tn vars) s.cache s.lruHits
        s.lruMisses).cache).filter (fun e => e.key ≠ genCacheKey tn vars)), ?_, ?_⟩
    · rfl
    · exact lruSet_prefix_keys (genCacheKey tn vars) _

/-- On a cache hit (with all earlier stages succeeding), `generate` returns
`cached=True` and leaves the remote-call counter untouched. -/
theorem generate_hit (env : GenEnv) (tn : String) (vars : List (String × PyVal))
    (rof : Bool) (ov : ApiOverrides) (now : Nat) (s : GenState)
    (t : PromptTemplate) (p : String) (d : ResultRecord)
    (hv : validateInput tn vars = none)
    (ht : getTemplate env.engine tn = some t)
    (hr : templateGenerate t vars true true = .ok p)
    (hg : (lruGet now (genCacheKey tn vars) s.cache s.lruHits s.lruMisses).found = some d) :
    (generate env tn vars true rof ov now s).1.cached = true ∧
    (generate env tn vars true rof ov now s).2.apiCalls = s.apiCalls := by
  simp [generate, hv, ht, hr, hg, finishWith]

/-- On a cache miss (with all earlier stages succeeding and a client
present), `generate` performs at least one remote call. -/
theorem generate_miss_api_calls (env : GenEnv) (tn : String)
    (vars : List (String × PyVal)) (rof : Bool) (ov : ApiOverrides) (now : Nat)
    (s : GenState) (t : PromptTemplate) (p : String)
    (hv : validateInput tn vars = none)
    (ht : getTemplate env.engine tn = some t)
    (hr : templateGenerate t vars true true = .ok p)
    (hg : (lruGet now (genCacheKey tn vars) s.cache s.lruHits s.lruMisses).found = none)
    (hp : env.apiManagerPresent = true) :
    s.apiCalls + 1 ≤ (generate env tn vars true rof ov now s).2.apiCalls := by
  cases ha : (callApiWithRetry env.oracle rof s.apiCalls).1.success with
  | false =>
    simp [generate, hv, ht, hr, hg, hp, ha, finishWith]
    exact callApiWithRetry_calls_ge env.oracle rof s.apiCalls
  | true =>
    simp [generate, hv, ht, hr, hg, hp, ha, finishWith]
    exact callApiWithRetry_calls_ge env.oracle rof s.apiCalls

/-- Claim C1 (confirmed).  If a `generate(template_name, variables,
use_cache=True)` call at time `t1` succeeds with a fresh (non-cached) result,
then a second call with the identical `(template_name, variables)` at any
time `t2` within the entry's TTL returns `cached=True` and performs zero
additional remote-client calls; and after `clear_cache()`, the same call at
any time `t3` performs a remote call again. -/
theorem second_call_cached_then_remote_after_clear (env : GenEnv) (tn : String)
    (vars : List (String × PyVal)) (rof : Bool) (ov : ApiOverrides)
    (t1 t2 t3 : Nat) (s0 : GenState)
    (h1 : (generate env tn vars true rof ov t1 s0).1.success = true)
    (h2 : (generate env tn vars true rof ov t1 s0).1.cached = false)
    (htt : t2 ≤ t1 + CACHE_TTL_SECONDS) :
    (generate env tn vars true rof ov t2
        (generate env tn vars true rof ov t1 s0).2).1.cached = true ∧
    (generate env tn vars true rof ov t2
        (generate env tn vars true rof ov t1 s0).2).2.apiCalls
      = (generate env tn vars true rof ov t1 s0).2.apiCalls ∧
    (generate env tn vars true rof ov t1 s0).2.apiCalls <
      (generate env tn vars true rof ov t3
        (clearCache (generate env tn vars true rof ov t2
          (generate env tn vars true rof ov t1 s0).2).2).2).2.apiCalls := by
  obtain ⟨hv, ⟨t, ht, p, hr⟩, hp, ⟨X, hcache, hX⟩⟩ :=
    generate_fresh_success env tn vars rof ov t1 s0 h1 h2
  have hg2 : (lruGet t2 (genCacheKey tn vars)
      (generate env tn vars true rof ov t1 s0).2.cache
      (generate env tn vars true rof ov t1 s0).2.lruHits
      (generate env tn vars true rof ov t1 s0).2.lruMisses).found
      = some (generate env tn vars true rof ov t1 s0).1 := by
    rw [hcache]
    exact lruGet_append_hit t2 X
      ⟨genCacheKey tn vars, (generate env tn vars true rof ov t1 s0).1,
       t1 + CACHE_TTL_SECONDS⟩ _ _ hX (by simp only; omega)
  have hhit := generate_hit env tn vars rof ov t2
    (generate env tn vars true rof ov t1 s0).2 t p
    (generate env tn vars true rof ov t1 s0).1 hv ht hr hg2
  refine ⟨hhit.1, hhit.2, ?_⟩
  have hmiss := generate_miss_api_calls env tn vars rof ov t3
    (clearCache (generate env tn vars true rof ov t2
      (generate env tn vars true rof ov t1 s0).2).2).2 t p hv ht hr rfl hp
  calc (generate env tn vars true rof ov t1 s0).2.apiCalls
      = (generate env tn vars true rof ov t2
          (generate env tn vars true rof ov t1 s0).2).2.apiCalls := hhit.2.symm
    _ < (generate env tn vars true rof ov t2
          (generate env tn vars true rof ov t1 s0).2).2.apiCalls + 1 := Nat.lt_succ_self _
    _ ≤ _ := hmiss

/-- A concrete generator environment for the C1 witness: the greet template
and a mock client that always succeeds. -/
def witnessEnv : GenEnv :=
  { engine := registerTemplate {} greetTemplate
    oracle := fun _ => .ret
      { success := true
        content := "Hi"
        model := "gpt-3.5-turbo"
        tokensUsed := ⟨5, 5, 10⟩
        cost := 0 }
    sanitizeOut := id }

/-- Witness for C1: a concrete first call at `t1 = 0`, second at `t2 = 10`,
third (after `clear_cache`) at `t3 = 20`. -/
theorem second_call_cached_then_remote_after_clear_witness :
    (generate witnessEnv "greet" [("name", .pstr "Alice")] true true {} 10
        (generate witnessEnv "greet" [("name", .pstr "Alice")] true true {} 0 {}).2).1.cached
      = true ∧
    (generate witnessEnv "greet" [("name", .pstr "Alice")] true true {} 10
        (generate witnessEnv "greet" [("name", .pstr "Alice")] true true {} 0 {}).2).2.apiCalls
      = (generate witnessEnv "greet" [("name", .pstr "Alice")] true true {} 0 {}).2.apiCalls ∧
    (generate witnessEnv "greet" [("name", .pstr "Alice")] true true {} 0 {}).2.apiCalls <
      (generate witnessEnv "greet" [("name", .pstr "Alice")] true true {} 20
        (clearCache (generate witnessEnv "greet" [("name", .pstr "Alice")] true true {} 10
          (generate witnessEnv "greet" [("name", .pstr "Alice")] true true {} 0 {}).2).2).2).2.apiCalls :=
  second_call_cached_then_remote_after_clear witnessEnv "greet"
    [("name", .pstr "Alice")] true {} 0 10 20 {} (by decide) (by decide) (by decide)

end ContentGen
